import Mathlib

/-!
# pg_statement_rollback: statement-level rollback hooks

A shallow embedding of `pg_statement_rollback.c`.  The extension keeps a dozen
session globals and installs hooks around the planner, the utility executor and
the four executor stages.  Each hook is embedded as a state transformer over
`World` (the extension's globals, the engine globals it reads or writes, and a
record of the calls it makes to the engine).  The engine itself (the forwarded
hook calls and the savepoint primitives) is a parameter `Engine`.

Integer counters are C `int`; nesting never approaches `2^31`, so they are
embedded as `Int` without wrap-around.  `elog(DEBUG1, ...)` calls have no effect
on any variable and are left out.
-/

namespace PgStatementRollback

/-! ## Engine-side types -/

/-- Handle of a `ResourceOwner` (a non-NULL pointer value). -/
abbrev ResourceOwner := Nat

/-- Handle of a `MemoryContext` (a non-NULL pointer value). -/
abbrev MemoryContext := Nat

/-- Handle of the `PlannedStmt *` a planner call returns. -/
abbrev PlannedStmt := Nat

/-- Handle of the `Query *` given to the planner. -/
abbrev Query := Nat

/-- The ways a call can end other than by returning. -/
inductive Fault where
  /-- Raised by the extension itself through `elog(ERROR, msg)`. -/
  | elog_error (msg : String)
  /-- Raised by the engine inside a forwarded call or a primitive. -/
  | engine_error (code : Nat)
  deriving DecidableEq

/-- Outcome of running a piece of C code from some state: it returns a value,
or leaves by `ereport(ERROR)` (a non-local jump to the innermost `PG_CATCH`;
the globals keep the values they had), or a failed `Assert` ends the backend
process (no `PG_CATCH` block runs; the state is the one at the failure). -/
inductive Outcome (σ : Type) (α : Type) where
  | ok (a : α) (s : σ)
  | fault (f : Fault) (s : σ)
  | abort (msg : String) (s : σ)
  deriving DecidableEq

/-- The state an outcome carries. -/
def Outcome.state {σ α : Type} : Outcome σ α → σ
  | .ok _ s => s
  | .fault _ s => s
  | .abort _ s => s

/-- Engine globals the extension reads or writes, and `xact`, which stands for
the rest of the engine's state (transaction block state and so on). -/
structure Host where
  CurrentResourceOwner : Option ResourceOwner
  PortalContext : Option MemoryContext
  ParallelWorkerNumber : Int
  log_statement : Nat
  log_duration : Bool
  log_min_duration_statement : Int
  xact : Nat
  deriving DecidableEq

/-- The hooks the extension installs. -/
inductive Hook where
  | planner | ProcessUtility | ExecutorStart | ExecutorRun | ExecutorFinish | ExecutorEnd
  deriving DecidableEq

/-- Calls recorded in `World.trace`: entries of the four savepoint-manager
functions, calls of engine primitives, and forwarded hook calls. -/
inductive Ev where
  | slr_save_resowner
  | slr_restore_resowner
  | slr_add_savepoint
  | slr_release_savepoint
  | DefineSavepoint (name : String)
  | ReleaseSavepoint (name : String)
  | CommitTransactionCommand
  | CommandCounterIncrement
  | MemoryContextRegisterResetCallback (ctx : MemoryContext)
  | forward (h : Hook)
  deriving DecidableEq

/-- Functions registered as memory-context reset callbacks. -/
inductive ResetCallback where
  | slr_restore_resowner
  deriving DecidableEq

/-- The extension's globals (lines 123-135), the engine globals it uses, and
three records: the reset callbacks it registered, the calls it made, and the
lines it sent to the server log. -/
structure World where
  slr_savepoint_name : String
  slr_enabled : Bool
  slr_xact_opened : Bool
  slr_pending : Bool
  slr_defered_save_resowner : Bool
  slr_enable_writeonly : Bool
  slr_nest_executor_level : Int
  slr_planner_done : Bool
  slr_nest_planner_level : Int
  oldresowner : Option ResourceOwner
  newresowner : Option ResourceOwner
  slrPortalContext : Option MemoryContext
  host : Host
  resetCallbacks : List (MemoryContext × ResetCallback)
  trace : List Ev
  serverLog : List String
  deriving DecidableEq

/-! ## Statements -/

/-- Values of `TransactionStmtKind`; `TRANS_STMT_other` stands for any value
outside the enumeration (the `default:` arm of the switch). -/
inductive TransactionStmtKind where
  | TRANS_STMT_BEGIN
  | TRANS_STMT_START
  | TRANS_STMT_COMMIT
  | TRANS_STMT_ROLLBACK
  | TRANS_STMT_SAVEPOINT
  | TRANS_STMT_RELEASE
  | TRANS_STMT_ROLLBACK_TO
  | TRANS_STMT_PREPARE
  | TRANS_STMT_COMMIT_PREPARED
  | TRANS_STMT_ROLLBACK_PREPARED
  | TRANS_STMT_other (kind : Nat)
  deriving DecidableEq

/-- The parse tree of a utility statement, by node tag.  A `TransactionStmt`
carries its kind and the savepoint name found in it (`none` for NULL). -/
inductive Node where
  | TransactionStmt (kind : TransactionStmtKind) (savepoint_name : Option String)
  | FetchStmt
  | DeclareCursorStmt
  | PlannedStmt
  | ClosePortalStmt
  | other (tag : Nat)
  deriving DecidableEq

/-- Values of `CommandDest` (`dest->mydest`). -/
inductive CommandDest where
  | DestNone | DestDebug | DestRemote | DestRemoteExecute | DestRemoteSimple
  | DestSPI | DestTuplestore | DestIntoRel | DestCopyOut | DestSQLFunction
  | DestTransientRel | DestTupleQueue
  deriving DecidableEq

/-- Values of `RTEKind`. -/
inductive RTEKind where
  | RTE_RELATION | RTE_SUBQUERY | RTE_JOIN | RTE_FUNCTION | RTE_TABLEFUNC
  | RTE_VALUES | RTE_CTE | RTE_NAMEDTUPLESTORE | RTE_RESULT
  deriving DecidableEq

/-- The fields of a range-table entry the extension reads. -/
structure RangeTblEntry where
  rtekind : RTEKind
  relid : Nat
  requiredPerms : Nat
  perminfoindex : Nat
  deriving DecidableEq

/-- The fields of a permission-info record the extension reads. -/
structure RTEPermissionInfo where
  relid : Nat
  requiredPerms : Nat
  deriving DecidableEq

/-- The parts of a `QueryDesc` the extension reads: `plannedstmt->rtable` and
`estate->es_rteperminfos`. -/
structure QueryDesc where
  rtable : List RangeTblEntry
  es_rteperminfos : List RTEPermissionInfo
  deriving DecidableEq

/-- The engine the extension is loaded into: its version, whether `Assert` is
compiled in, the transaction primitives (which act on engine state only) and
the calls the hooks forward to (the previous hook or the `standard_` function;
these may re-enter the hooks and change any global). -/
structure Engine where
  PG_VERSION_NUM : Nat
  USE_ASSERT_CHECKING : Bool
  DefineSavepoint : String → Host → Outcome Host Unit
  ReleaseSavepoint : String → Host → Outcome Host Unit
  CommitTransactionCommand : Host → Outcome Host Unit
  CommandCounterIncrement : Host → Outcome Host Unit
  planner : Query → World → Outcome World PlannedStmt
  ProcessUtility : Node → CommandDest → World → Outcome World Unit
  ExecutorStart : QueryDesc → World → Outcome World Unit
  ExecutorRun : QueryDesc → World → Outcome World Unit
  ExecutorFinish : QueryDesc → World → Outcome World Unit
  ExecutorEnd : QueryDesc → World → Outcome World Unit

/-! ## Sequencing -/

/-- A piece of C code: from a state to an outcome. -/
def Exec (α : Type) : Type := World → Outcome World α

/-- Return a value, leaving the state as it is. -/
def Exec.pure {α : Type} (a : α) : Exec α := fun w => .ok a w

/-- Run `x`, then, if it returned, run `f` on its value. -/
def Exec.bind {α β : Type} (x : Exec α) (f : α → Exec β) : Exec β := fun w =>
  match x w with
  | .ok a w1 => f a w1
  | .fault e w1 => .fault e w1
  | .abort m w1 => .abort m w1

instance : Monad Exec where
  pure := Exec.pure
  bind := Exec.bind

/-- Read the state. -/
def getW : Exec World := fun w => .ok w w

/-- Assign to globals. -/
def modifyW (f : World → World) : Exec Unit := fun w => .ok () (f w)

/-- Leave by `elog(ERROR, msg)`. -/
def elog_ERROR (msg : String) : Exec Unit := fun w => .fault (.elog_error msg) w

/-- Append a call to the trace. -/
def record (e : Ev) : Exec Unit :=
  modifyW fun w => { w with trace := w.trace ++ [e] }

/-- `Assert(cond)`: nothing when assertions are compiled out or `cond` holds,
otherwise the backend aborts. -/
def Assert (E : Engine) (cond : World → Bool) (text : String) : Exec Unit := fun w =>
  if E.USE_ASSERT_CHECKING && !cond w then .abort text w else .ok () w

/-- Call an engine primitive: the call is recorded, then the primitive acts on
the engine state. -/
def callHost (e : Ev) (p : Host → Outcome Host Unit) : Exec Unit := fun w =>
  let w1 := { w with trace := w.trace ++ [e] }
  match p w1.host with
  | .ok _ h => .ok () { w1 with host := h }
  | .fault f h => .fault f { w1 with host := h }
  | .abort m h => .abort m { w1 with host := h }

/-- Forward to the previous hook or the engine's standard function: the call is
recorded, then the forwarded function runs. -/
def forwardTo {α : Type} (h : Hook) (f : World → Outcome World α) : Exec α := fun w =>
  f { w with trace := w.trace ++ [.forward h] }

/-- `PG_TRY(); body PG_CATCH(); cleanup; PG_RE_THROW(); PG_END_TRY();` -/
def PG_TRY {α : Type} (body : Exec α) (cleanup : World → World) : Exec α := fun w =>
  match body w with
  | .ok a w1 => .ok a w1
  | .fault f w1 => .fault f (cleanup w1)
  | .abort m w1 => .abort m w1

/-- `IN_PARALLEL_WORKER` (line 78). -/
def IN_PARALLEL_WORKER (w : World) : Bool := decide (w.host.ParallelWorkerNumber ≥ 0)

/-- `LOGSTMT_ALL`, the highest value of `log_statement`. -/
def LOGSTMT_ALL : Nat := 3

/-- The lines `slr_log` writes (lines 807-840): the statement line when
`log_statement` is `all`, and a duration line when durations are logged. -/
def slr_log_lines (kind : String) (name : String) (h : Host) : List String :=
  let was_logged := decide (LOGSTMT_ALL ≤ h.log_statement)
  (if was_logged then
    ["statement: " ++ kind ++ " " ++ name ++ "; /* automatic savepoint */"]
  else [])
  ++
  (if h.log_duration || h.log_min_duration_statement == 0 then
    if was_logged then
      ["duration: 0.01 ms"]
    else
      ["duration: 0.01 ms  statement: " ++ kind ++ " " ++ name ++ "; /* automatic savepoint */"]
  else [])

/-- `slr_log` (lines 807-840). -/
def slr_log (kind : String) : Exec Unit :=
  modifyW fun w => { w with
    serverLog := w.serverLog ++ slr_log_lines kind w.slr_savepoint_name w.host }

/-! ## Savepoint manager -/

/-- `slr_restore_resowner` (lines 677-690). -/
def slr_restore_resowner (E : Engine) : Exec Unit := do
  record .slr_restore_resowner
  Assert E (fun w => w.slr_nest_executor_level == 0) "slr_nest_executor_level == 0"
  let w ← getW
  if w.slr_enabled && w.slr_xact_opened && w.newresowner.isSome then
    modifyW fun w => { w with
      host := { w.host with CurrentResourceOwner := w.newresowner },
      newresowner := none }
    slr_log "SAVEPOINT"

/-- `slr_save_resowner` (lines 696-708). -/
def slr_save_resowner (E : Engine) : Exec Unit := do
  record .slr_save_resowner
  Assert E (fun w => w.oldresowner.isNone) "oldresowner == NULL"
  Assert E (fun w => w.slr_nest_executor_level == 0) "slr_nest_executor_level == 0"
  let w ← getW
  if w.slr_enabled && w.slr_xact_opened then
    modifyW fun w => { w with
      oldresowner := w.host.CurrentResourceOwner,
      slrPortalContext := w.host.PortalContext }

/-- `slr_add_savepoint` (lines 719-765).  `MemoryContextAlloc` followed by
`MemoryContextRegisterResetCallback` adds `slr_restore_resowner` to the
callbacks of the context. -/
def slr_add_savepoint (E : Engine) : Exec Unit := do
  record .slr_add_savepoint
  Assert E (fun w => w.slr_nest_executor_level == 0) "slr_nest_executor_level == 0"
  let w ← getW
  if w.slr_enabled && w.slr_xact_opened then
    callHost (.DefineSavepoint w.slr_savepoint_name) (E.DefineSavepoint w.slr_savepoint_name)
    callHost .CommitTransactionCommand E.CommitTransactionCommand
    callHost .CommandCounterIncrement E.CommandCounterIncrement
    modifyW fun w => { w with newresowner := w.host.CurrentResourceOwner }
    let w ← getW
    if w.oldresowner.isNone then
      elog_ERROR "Automatic savepoint internal error, no resource owner."
    else
      match w.slrPortalContext with
      | none => elog_ERROR "Automatic savepoint internal error, no portal context."
      | some ctx =>
        modifyW fun w => { w with
          host := { w.host with CurrentResourceOwner := w.oldresowner },
          oldresowner := none }
        record (.MemoryContextRegisterResetCallback ctx)
        modifyW fun w => { w with
          resetCallbacks := w.resetCallbacks ++ [(ctx, .slr_restore_resowner)] }
        modifyW fun w => { w with slrPortalContext := none }
        modifyW fun w => { w with slr_pending := true }

/-- `slr_release_savepoint` (lines 771-805). -/
def slr_release_savepoint (E : Engine) : Exec Unit := do
  record .slr_release_savepoint
  Assert E (fun w => w.slr_nest_executor_level == 0) "slr_nest_executor_level == 0"
  let w ← getW
  if w.slr_enabled && w.slr_xact_opened && w.slr_pending then
    callHost (.ReleaseSavepoint w.slr_savepoint_name) (E.ReleaseSavepoint w.slr_savepoint_name)
    callHost .CommitTransactionCommand E.CommitTransactionCommand
    callHost .CommandCounterIncrement E.CommandCounterIncrement
    modifyW fun w => { w with slr_pending := false }
    slr_log "RELEASE"

/-! ## Write detection -/

/-- `ACL_SELECT`, the read-permission bit (`1 << 1`). -/
def ACL_SELECT : Nat := 2

/-- `perms & (~ACL_SELECT)` on an `AclMode` of the given width (`uint32` before
version 16, `uint64` from 16). -/
def without_ACL_SELECT (bits : Nat) (perms : Nat) : Nat :=
  (perms % 2 ^ bits) &&& (2 ^ bits - 1 - ACL_SELECT)

/-- `localGetRTEPermissionInfo` (lines 899-915). -/
def localGetRTEPermissionInfo (rteperminfos : List RTEPermissionInfo)
    (rte : RangeTblEntry) : Except Fault RTEPermissionInfo :=
  if rte.perminfoindex == 0 || decide (rte.perminfoindex > rteperminfos.length) then
    .error (.elog_error "invalid perminfoindex in RTE")
  else
    match rteperminfos.get? (rte.perminfoindex - 1) with
    | none => .error (.elog_error "invalid perminfoindex in RTE")
    | some perminfo =>
      if perminfo.relid != rte.relid then
        .error (.elog_error "permission info does not match provided RTE")
      else
        .ok perminfo

/-- The `foreach` loop of `slr_is_write_query` (lines 854-874) over the rest
of the range table. -/
def slr_is_write_query_loop (PG_VERSION_NUM : Nat) (rteperminfos : List RTEPermissionInfo) :
    List RangeTblEntry → Except Fault Bool
  | [] => .ok false
  | rte :: rest =>
    if rte.rtekind != .RTE_RELATION then
      slr_is_write_query_loop PG_VERSION_NUM rteperminfos rest
    else if PG_VERSION_NUM < 160000 then
      if without_ACL_SELECT 32 rte.requiredPerms == 0 then
        slr_is_write_query_loop PG_VERSION_NUM rteperminfos rest
      else
        .ok true
    else if rte.perminfoindex != 0 then
      match localGetRTEPermissionInfo rteperminfos rte with
      | .error f => .error f
      | .ok perminfo =>
        if without_ACL_SELECT 64 perminfo.requiredPerms == 0 then
          slr_is_write_query_loop PG_VERSION_NUM rteperminfos rest
        else
          .ok true
    else
      .ok true

/-- `slr_is_write_query` (lines 845-877). -/
def slr_is_write_query (PG_VERSION_NUM : Nat) (queryDesc : QueryDesc) : Except Fault Bool :=
  slr_is_write_query_loop PG_VERSION_NUM queryDesc.es_rteperminfos queryDesc.rtable

/-- Evaluate a call that reads no global and may leave by `elog(ERROR)`. -/
def liftExcept {α : Type} (r : Except Fault α) : Exec α := fun w =>
  match r with
  | .ok a => .ok a w
  | .error f => .fault f w

/-! ## Hooks -/

/-- `slr_nest_planner_level++` and `--`. -/
def planner_level_add (d : Int) (w : World) : World :=
  { w with slr_nest_planner_level := w.slr_nest_planner_level + d }

/-- `slr_nest_executor_level++` and `--`. -/
def executor_level_add (d : Int) (w : World) : World :=
  { w with slr_nest_executor_level := w.slr_nest_executor_level + d }

/-- `slr_planner` (lines 229-260).  The forwarded call is not wrapped in
`PG_TRY`. -/
def slr_planner (E : Engine) (parse : Query) : Exec PlannedStmt := do
  modifyW fun w =>
    if w.slr_nest_executor_level == 0 && w.slr_nest_planner_level == 0 then
      { w with slr_planner_done := false }
    else w
  modifyW (planner_level_add 1)
  let stmt ← forwardTo .planner (E.planner parse)
  modifyW (planner_level_add (-1))
  modifyW fun w =>
    if w.slr_nest_executor_level == 0 && w.slr_nest_planner_level == 0 then
      { w with slr_planner_done := true }
    else w
  return stmt

/-- The guard of lines 272-276 and 429-433, which the source labels
"SPI calls are internal": the destination is SPI or this is a parallel worker. -/
def internal_call (dest : CommandDest) (w : World) : Bool :=
  dest == .DestSPI || IN_PARALLEL_WORKER w

/-- First part of `slr_ProcessUtility` (lines 268-406): the statement is
classified before it runs.  The value is the pair of locals
`(release_add_savepoint, add_savepoint)`. -/
def slr_ProcessUtility_classify (parsetree : Node) (dest : CommandDest) :
    Exec (Bool × Bool) := fun w =>
  if internal_call dest w then
    .ok (false, false) w
  else
    match parsetree with
    | .TransactionStmt kind savepoint_name =>
      match kind with
      | .TRANS_STMT_PREPARE =>
        .ok (false, false) { w with slr_xact_opened := false }
      | .TRANS_STMT_BEGIN | .TRANS_STMT_START =>
        .ok (false, w.slr_enabled && w.slr_nest_executor_level == 0 && !w.slr_xact_opened)
          { w with slr_xact_opened := true }
      | .TRANS_STMT_COMMIT | .TRANS_STMT_COMMIT_PREPARED
      | .TRANS_STMT_ROLLBACK_PREPARED | .TRANS_STMT_ROLLBACK =>
        .ok (false, false) { w with slr_xact_opened := false, slr_pending := false }
      | .TRANS_STMT_SAVEPOINT =>
        match savepoint_name with
        | some name => .ok (false, w.slr_enabled && name != w.slr_savepoint_name) w
        | none => .ok (false, false) w
      | .TRANS_STMT_RELEASE => .ok (false, false) w
      | .TRANS_STMT_ROLLBACK_TO => .ok (false, false) w
      | .TRANS_STMT_other _ => .fault (.elog_error "RSL: Unexpected transaction kind.") w
    | _ =>
      if parsetree == .FetchStmt then
        .ok (false, false) w
      else if w.slr_enabled
          && (parsetree == .DeclareCursorStmt || parsetree == .PlannedStmt) then
        .ok (parsetree == .DeclareCursorStmt, false) w
      else if parsetree != .ClosePortalStmt then
        .ok (w.slr_enabled && w.slr_nest_executor_level == 0, false) w
      else
        .ok (false, false) w

/-- Last part of `slr_ProcessUtility` (lines 428-504), run once the forwarded
call has returned: the intent computed by the classifier is carried out, or
else a deferred rotation, and the deferred flag is reset. -/
def slr_ProcessUtility_after (E : Engine) (dest : CommandDest)
    (release_add_savepoint add_savepoint : Bool) : Exec Unit := do
  let w ← getW
  if internal_call dest w then
    pure ()
  else
    if release_add_savepoint then
      slr_save_resowner E
      slr_release_savepoint E
      slr_add_savepoint E
    else if add_savepoint then
      slr_save_resowner E
      callHost .CommitTransactionCommand E.CommitTransactionCommand
      callHost .CommandCounterIncrement E.CommandCounterIncrement
      slr_add_savepoint E
    else if w.slr_defered_save_resowner then
      slr_save_resowner E
      slr_release_savepoint E
      slr_add_savepoint E
    modifyW fun w => { w with slr_defered_save_resowner := false }

/-- `slr_ProcessUtility` (lines 262-504): classification, the forwarded call
with the executor level raised around it (lines 408-426), then the last part. -/
def slr_ProcessUtility (E : Engine) (parsetree : Node) (dest : CommandDest) : Exec Unit := do
  let intent ← slr_ProcessUtility_classify parsetree dest
  modifyW (executor_level_add 1)
  PG_TRY
    (do
      forwardTo .ProcessUtility (E.ProcessUtility parsetree dest)
      modifyW (executor_level_add (-1)))
    (executor_level_add (-1))
  slr_ProcessUtility_after E dest intent.1 intent.2

/-- `slr_ExecutorStart` (lines 512-557). -/
def slr_ExecutorStart (E : Engine) (queryDesc : QueryDesc) : Exec Unit := do
  forwardTo .ExecutorStart (E.ExecutorStart queryDesc)
  let w ← getW
  if IN_PARALLEL_WORKER w then
    pure ()
  else
    if w.slr_enabled && w.slr_nest_executor_level == 0 && w.slr_planner_done then
      slr_save_resowner E
    let w ← getW
    if w.slr_enabled && decide (w.slr_nest_executor_level > 0) && w.slr_planner_done
        && w.slr_enable_writeonly then
      let is_write ← liftExcept (slr_is_write_query E.PG_VERSION_NUM queryDesc)
      if is_write then
        modifyW fun w => { w with slr_defered_save_resowner := true }

/-- `slr_ExecutorRun` (lines 563-602). -/
def slr_ExecutorRun (E : Engine) (queryDesc : QueryDesc) : Exec Unit := do
  modifyW (executor_level_add 1)
  PG_TRY
    (do
      forwardTo .ExecutorRun (E.ExecutorRun queryDesc)
      modifyW (executor_level_add (-1)))
    (executor_level_add (-1))

/-- `slr_ExecutorFinish` (lines 607-630). -/
def slr_ExecutorFinish (E : Engine) (queryDesc : QueryDesc) : Exec Unit := do
  modifyW (executor_level_add 1)
  PG_TRY
    (do
      forwardTo .ExecutorFinish (E.ExecutorFinish queryDesc)
      modifyW (executor_level_add (-1)))
    (executor_level_add (-1))

/-- The condition of the `if` in `slr_ExecutorEnd` (lines 648-657), evaluated
left to right with short-circuit: `slr_is_write_query` runs only when all the
operands before it leave the result open. -/
def slr_ExecutorEnd_cond (E : Engine) (queryDesc : QueryDesc) : Exec Bool := do
  let w ← getW
  if !IN_PARALLEL_WORKER w && w.slr_enabled && w.slr_nest_executor_level == 0
      && w.slr_planner_done then
    if !w.slr_enable_writeonly || w.slr_defered_save_resowner then
      pure true
    else
      liftExcept (slr_is_write_query E.PG_VERSION_NUM queryDesc)
  else
    pure false

/-- `slr_ExecutorEnd` (lines 638-671). -/
def slr_ExecutorEnd (E : Engine) (queryDesc : QueryDesc) : Exec Unit := do
  let rotate ← slr_ExecutorEnd_cond E queryDesc
  if rotate then
    slr_release_savepoint E
    slr_add_savepoint E
    modifyW fun w => { w with slr_defered_save_resowner := false }
  forwardTo .ExecutorEnd (E.ExecutorEnd queryDesc)

/-! ## Reasoning about outcomes -/

/-- `P` holds of the state in which a call returns or raises; nothing is said
of an abort, after which no code runs. -/
def Outcome.exits {α : Type} (o : Outcome World α) (P : World → Prop) : Prop :=
  match o with
  | .ok _ s => P s
  | .fault _ s => P s
  | .abort _ _ => True

/-- `x` keeps `I`: from a state where `I` holds, every state `x` can end in
(returning, raising or aborting) satisfies `I`. -/
structure Exec.preserves {α : Type} (x : Exec α) (I : World → Prop) : Prop where
  state : ∀ w, I w → I (x w).state

/-- The four savepoint-manager functions among the recorded calls. -/
def Ev.isManagerCall : Ev → Bool
  | .slr_save_resowner => true
  | .slr_restore_resowner => true
  | .slr_add_savepoint => true
  | .slr_release_savepoint => true
  | _ => false

/-- The calls of savepoint-manager functions in a trace, in order. -/
def managerCalls (t : List Ev) : List Ev := t.filter Ev.isManagerCall

/-- The globals that no savepoint-manager function assigns. -/
structure Kept where
  slr_savepoint_name : String
  slr_enabled : Bool
  slr_xact_opened : Bool
  slr_defered_save_resowner : Bool
  slr_enable_writeonly : Bool
  slr_nest_executor_level : Int
  slr_planner_done : Bool
  slr_nest_planner_level : Int
  deriving DecidableEq

/-- Projection of a state on the globals of `Kept`. -/
def World.kept (w : World) : Kept :=
  { slr_savepoint_name := w.slr_savepoint_name,
    slr_enabled := w.slr_enabled,
    slr_xact_opened := w.slr_xact_opened,
    slr_defered_save_resowner := w.slr_defered_save_resowner,
    slr_enable_writeonly := w.slr_enable_writeonly,
    slr_nest_executor_level := w.slr_nest_executor_level,
    slr_planner_done := w.slr_planner_done,
    slr_nest_planner_level := w.slr_nest_planner_level }

/-- `x` keeps `I` on exit: from a state where `I` holds, `I` holds again when
`x` returns or raises. -/
def Exec.exits_keep {α : Type} (x : Exec α) (I : World → Prop) : Prop :=
  ∀ w, I w → (x w).exits I

/-! ## Sample states and engines -/

/-- Engine globals of a regular backend (not a parallel worker) that is running
a statement: a resource owner and a portal context are current. -/
def Host.running : Host :=
  { CurrentResourceOwner := some 1, PortalContext := some 10, ParallelWorkerNumber := -1,
    log_statement := 0, log_duration := false, log_min_duration_statement := -1, xact := 0 }

/-- The session right after `_PG_init`: the initial values of lines 123-135,
with the savepoint name at its boot value. -/
def World.initial : World :=
  { slr_savepoint_name := "PgSLRAutoSvpt", slr_enabled := true, slr_xact_opened := false,
    slr_pending := false, slr_defered_save_resowner := false, slr_enable_writeonly := true,
    slr_nest_executor_level := 0, slr_planner_done := false, slr_nest_planner_level := 0,
    oldresowner := none, newresowner := none, slrPortalContext := none,
    host := Host.running, resetCallbacks := [], trace := [], serverLog := [] }

/-- An engine in which every forwarded call returns at once without touching
any global, and in which committing after `DefineSavepoint` makes a new
resource owner current. -/
def Engine.quiet : Engine :=
  { PG_VERSION_NUM := 150000, USE_ASSERT_CHECKING := true,
    DefineSavepoint := fun _ h => .ok () { h with xact := h.xact + 1 },
    ReleaseSavepoint := fun _ h => .ok () h,
    CommitTransactionCommand := fun h =>
      .ok () { h with CurrentResourceOwner := some (100 + h.xact) },
    CommandCounterIncrement := fun h => .ok () h,
    planner := fun _ w => .ok 0 w,
    ProcessUtility := fun _ _ w => .ok () w,
    ExecutorStart := fun _ w => .ok () w,
    ExecutorRun := fun _ w => .ok () w,
    ExecutorFinish := fun _ w => .ok () w,
    ExecutorEnd := fun _ w => .ok () w }

/-- The quiet engine, except that the forwarded planner call raises an error. -/
def Engine.planner_raises : Engine :=
  { Engine.quiet with planner := fun _ w => .fault (.engine_error 0) w }

/-- The quiet engine, except that the forwarded run and utility calls raise. -/
def Engine.run_raises : Engine :=
  { Engine.quiet with
    ExecutorRun := fun _ w => .fault (.engine_error 0) w,
    ProcessUtility := fun _ _ w => .fault (.engine_error 0) w }

/-- A query touching no table. -/
def QueryDesc.empty : QueryDesc := { rtable := [], es_rteperminfos := [] }

/-- A session at the end of a top-level statement inside a transaction: a
savepoint is pending, the resource owner was saved at execution start, and a
nested write has set the deferred flag. -/
def World.rotating : World :=
  { World.initial with
    slr_xact_opened := true, slr_pending := true, slr_planner_done := true,
    slr_defered_save_resowner := true,
    oldresowner := some 1, slrPortalContext := some 10 }

/-- A session inside a transaction at the end of a statement: the resource owner
and the portal context were saved when execution started. -/
def World.saved : World :=
  { World.initial with
    slr_xact_opened := true, slr_planner_done := true,
    oldresowner := some 1, slrPortalContext := some 10 }

/-- A session inside a transaction, between statements, with a savepoint
pending. -/
def World.open_pending : World :=
  { World.initial with slr_xact_opened := true, slr_pending := true, slr_planner_done := true }

/-- `COMMIT`, `ROLLBACK`, `COMMIT PREPARED` and `ROLLBACK PREPARED` (the arm of
lines 319-327). -/
def TransactionStmtKind.ends_transaction : TransactionStmtKind → Bool
  | .TRANS_STMT_COMMIT => true
  | .TRANS_STMT_COMMIT_PREPARED => true
  | .TRANS_STMT_ROLLBACK_PREPARED => true
  | .TRANS_STMT_ROLLBACK => true
  | _ => false

/-- A range table holding one real table that needs no permission check
(`perminfoindex = 0`), as the children of a partitioned table are from
version 16 on. -/
def QueryDesc.unchecked_child : QueryDesc :=
  { rtable := [{ rtekind := .RTE_RELATION, relid := 16384, requiredPerms := 0,
                 perminfoindex := 0 }],
    es_rteperminfos := [] }

/-- What the comment of `slr_is_write_query` asks for: some entry of the range
table is a real table whose required permissions hold a bit other than
`ACL_SELECT`. -/
def writes_a_table (bits : Nat) (rtable : List RangeTblEntry) : Bool :=
  rtable.any fun rte =>
    rte.rtekind == .RTE_RELATION && without_ACL_SELECT bits rte.requiredPerms != 0

/-- A query that inserts into one table: the entry requires `ACL_INSERT`. -/
def QueryDesc.insert : QueryDesc :=
  { rtable := [{ rtekind := .RTE_RELATION, relid := 16385, requiredPerms := 1,
                 perminfoindex := 0 }],
    es_rteperminfos := [] }

/-- A query that reads one table: the entry requires `ACL_SELECT` only. -/
def QueryDesc.select : QueryDesc :=
  { rtable := [{ rtekind := .RTE_RELATION, relid := 16385, requiredPerms := 2,
                 perminfoindex := 0 }],
    es_rteperminfos := [] }

/-- A session inside the run of a top-level statement (executor level 1) of an
open transaction with a savepoint pending; the resource owner was saved when
the top-level statement started. -/
def World.nested : World :=
  { World.saved with slr_pending := true, slr_nest_executor_level := 1 }

/-- A session between statements of an open transaction with a savepoint
pending and a rotation owed: the deferred flag is set. -/
def World.owing : World :=
  { World.open_pending with slr_defered_save_resowner := true }

/-- The fields of `ErrorData` that matter here: the severity and the message. -/
structure ErrorData where
  elevel : Int
  message : String
  deriving DecidableEq

/-- `disable_differed_slr` (lines 879-889), the `emit_log_hook` subscriber.
`ERROR` is the engine's severity constant and `prev_log_hook` the subscriber
that was installed before (`none` for NULL). -/
def disable_differed_slr (ERROR : Int)
    (prev_log_hook : Option (ErrorData → World → Outcome World Unit))
    (edata : ErrorData) : Exec Unit := do
  if edata.elevel ≥ ERROR then
    modifyW fun w => { w with slr_defered_save_resowner := false }
  match prev_log_hook with
  | some hook => hook edata
  | none => pure ()

/-- A previous log subscriber that writes the message it receives to the server
log. -/
def log_message (edata : ErrorData) : World → Outcome World Unit :=
  fun w => .ok () { w with serverLog := w.serverLog ++ [edata.message] }

/-- The text of the failed `Assert`, when the outcome is an abort. -/
def Outcome.abort_text {σ α : Type} : Outcome σ α → Option String
  | .abort msg _ => some msg
  | _ => none

/-- The engine calls the reset callbacks of a memory context it deletes, each
once; the callbacks here all run `slr_restore_resowner`. -/
def run_reset_callbacks (E : Engine) : List (MemoryContext × ResetCallback) → Exec Unit
  | [] => pure ()
  | (_, .slr_restore_resowner) :: rest => do
    slr_restore_resowner E
    run_reset_callbacks E rest

/-- The engine deletes a memory context: the callbacks registered on it are
forgotten and called, the last registered first. -/
def MemoryContextDelete (E : Engine) (ctx : MemoryContext) : Exec Unit := do
  let w ← getW
  modifyW fun w => { w with resetCallbacks := w.resetCallbacks.filter (fun c => c.1 != ctx) }
  run_reset_callbacks E (w.resetCallbacks.filter (fun c => c.1 == ctx)).reverse

/-- The engine drops the portal of a finished top-level statement, deleting the
portal context. -/
def PortalDrop (E : Engine) : Exec Unit := do
  let w ← getW
  match w.host.PortalContext with
  | some ctx => MemoryContextDelete E ctx
  | none => pure ()

/-- The hooks the engine goes through for a planned statement: planner, then
executor start, run, finish and end.  A hook that raises ends the sequence. -/
def planned_statement_hooks (E : Engine) (parse : Query) (queryDesc : QueryDesc) :
    Exec Unit := do
  let _ ← slr_planner E parse
  slr_ExecutorStart E queryDesc
  slr_ExecutorRun E queryDesc
  slr_ExecutorFinish E queryDesc
  slr_ExecutorEnd E queryDesc

/-- A planned top-level statement sent by the client: its hooks, then its portal
is dropped. -/
def planned_statement (E : Engine) (parse : Query) (queryDesc : QueryDesc) : Exec Unit := do
  planned_statement_hooks E parse queryDesc
  PortalDrop E

/-- A utility top-level statement sent by the client: the utility hook on a
remote destination, then its portal is dropped. -/
def utility_statement (E : Engine) (parsetree : Node) : Exec Unit := do
  slr_ProcessUtility E parsetree .DestRemote
  PortalDrop E

/-- A session outside any transaction block, inside the run of a top-level
statement (executor level 1), planning complete. -/
def World.autocommit_nested : World :=
  { World.initial with slr_planner_done := true, slr_nest_executor_level := 1 }

/-- The error an outcome raised, when it is one. -/
def Outcome.raised {σ α : Type} : Outcome σ α → Option Fault
  | .fault f _ => some f
  | _ => none

/-- The calls of `DefineSavepoint` and `ReleaseSavepoint` in a trace, in order. -/
def savepoint_calls (t : List Ev) : List Ev :=
  t.filter fun e =>
    match e with
    | .DefineSavepoint _ => true
    | .ReleaseSavepoint _ => true
    | _ => false

/-- `BEGIN`, sent by the client to the quiet engine. -/
def scenario_begin : Exec Unit :=
  utility_statement Engine.quiet (.TransactionStmt .TRANS_STMT_BEGIN none)

/-- `BEGIN; INSERT`, both succeeding. -/
def scenario_begin_insert : Exec Unit := do
  scenario_begin
  planned_statement Engine.quiet 0 QueryDesc.insert

/-- `BEGIN; INSERT;` and then a statement whose forwarded run raises. -/
def scenario_begin_insert_fault : Exec Unit := do
  scenario_begin_insert
  planned_statement Engine.run_raises 0 QueryDesc.insert

/-- An engine whose forwarded run call plans and executes one nested write
statement (planner, start, run, finish, end, all forwarded to the quiet engine)
and returns; its other calls are the quiet engine's. -/
def Engine.calls_writer : Engine :=
  { Engine.quiet with
    ExecutorRun := fun _ w => planned_statement_hooks Engine.quiet 1 QueryDesc.insert w }

/-- The state in which the nested execution start of
`planned_statement_hooks Engine.calls_writer 0 QueryDesc.select` is entered from
`World.open_pending`: the top-level planner and start hooks have run, the level
was raised for the forwarded run, and the nested planner hook has run. -/
def World.before_nested_start : World :=
  let a := ((do
      let _ ← slr_planner Engine.quiet 0
      slr_ExecutorStart Engine.quiet QueryDesc.select : Exec Unit) World.open_pending).state
  (slr_planner Engine.quiet 1
    { executor_level_add 1 a with trace := a.trace ++ [.forward .ExecutorRun] }).state

/-- A session outside any transaction block, between statements, holding a
resource owner in `newresowner`. -/
def World.closed_with_new : World :=
  { World.initial with newresowner := some 7 }

/-- A session in a parallel worker, inside a transaction with a savepoint
pending and a rotation owed. -/
def World.worker : World :=
  { World.owing with host := { Host.running with ParallelWorkerNumber := 0 } }

/-! ## Theorems -/

theorem preserves_pure {α : Type} (a : α) (I : World → Prop) :
    (pure a : Exec α).preserves I := ⟨fun _ hw => hw⟩

theorem preserves_bind {α β : Type} {x : Exec α} {f : α → Exec β} {I : World → Prop}
    (hx : x.preserves I) (hf : ∀ a, (f a).preserves I) : (x >>= f).preserves I := by
  constructor
  intro w hw
  have h1 := hx.state w hw
  show I (Exec.bind x f w).state
  unfold Exec.bind
  cases h : x w with
  | ok a w1 => rw [h] at h1; exact (hf a).state w1 h1
  | fault e w1 => rw [h] at h1; exact h1
  | abort m w1 => rw [h] at h1; exact h1

theorem preserves_ite {α : Type} {c : Prop} [Decidable c] {x y : Exec α} {I : World → Prop}
    (hx : x.preserves I) (hy : y.preserves I) : (if c then x else y).preserves I := by
  split
  · exact hx
  · exact hy

theorem preserves_getW (I : World → Prop) : getW.preserves I := ⟨fun _ hw => hw⟩

theorem preserves_modifyW {f : World → World} {I : World → Prop}
    (h : ∀ w, I w → I (f w)) : (modifyW f).preserves I := ⟨fun w hw => h w hw⟩

theorem preserves_elog_ERROR (msg : String) (I : World → Prop) :
    (elog_ERROR msg).preserves I := ⟨fun _ hw => hw⟩

theorem preserves_Assert (E : Engine) (c : World → Bool) (t : String) (I : World → Prop) :
    (Assert E c t).preserves I := by
  constructor
  intro w hw
  unfold Assert
  split <;> exact hw

theorem preserves_record {e : Ev} {I : World → Prop}
    (h : ∀ w, I w → I { w with trace := w.trace ++ [e] }) : (record e).preserves I :=
  preserves_modifyW h

theorem preserves_callHost {e : Ev} {p : Host → Outcome Host Unit} {I : World → Prop}
    (h : ∀ w hst, I w → I { w with trace := w.trace ++ [e], host := hst }) :
    (callHost e p).preserves I := by
  constructor
  intro w hw
  unfold callHost
  cases hp : p w.host <;> simp only [hp, Outcome.state] <;> exact h w _ hw

theorem preserves_slr_log {kind : String} {I : World → Prop}
    (h : ∀ w l, I w → I { w with serverLog := l }) : (slr_log kind).preserves I :=
  preserves_modifyW (fun w hw => h w _ hw)

/-- No savepoint-manager function assigns a global of `Kept`. -/
theorem slr_add_savepoint_kept (E : Engine) (k : Kept) :
    (slr_add_savepoint E).preserves (fun s => s.kept = k) := by
  unfold slr_add_savepoint
  repeat' (first
    | exact preserves_pure _ _
    | exact preserves_getW _
    | exact preserves_elog_ERROR _ _
    | exact preserves_Assert _ _ _ _
    | exact preserves_record (fun w hw => by simpa [World.kept] using hw)
    | exact preserves_callHost (fun w h hw => by simpa [World.kept] using hw)
    | exact preserves_slr_log (fun w h hw => by simpa [World.kept] using hw)
    | exact preserves_modifyW (fun w hw => by simpa [World.kept] using hw)
    | apply preserves_bind
    | apply preserves_ite
    | intro _
    | split)

theorem slr_release_savepoint_kept (E : Engine) (k : Kept) :
    (slr_release_savepoint E).preserves (fun s => s.kept = k) := by
  unfold slr_release_savepoint
  repeat' (first
    | exact preserves_pure _ _
    | exact preserves_getW _
    | exact preserves_Assert _ _ _ _
    | exact preserves_record (fun w hw => by simpa [World.kept] using hw)
    | exact preserves_callHost (fun w h hw => by simpa [World.kept] using hw)
    | exact preserves_slr_log (fun w h hw => by simpa [World.kept] using hw)
    | exact preserves_modifyW (fun w hw => by simpa [World.kept] using hw)
    | apply preserves_bind
    | apply preserves_ite
    | intro _)

theorem slr_save_resowner_kept (E : Engine) (k : Kept) :
    (slr_save_resowner E).preserves (fun s => s.kept = k) := by
  unfold slr_save_resowner
  repeat' (first
    | exact preserves_pure _ _
    | exact preserves_getW _
    | exact preserves_Assert _ _ _ _
    | exact preserves_record (fun w hw => by simpa [World.kept] using hw)
    | exact preserves_modifyW (fun w hw => by simpa [World.kept] using hw)
    | apply preserves_bind
    | apply preserves_ite
    | intro _)

theorem slr_restore_resowner_kept (E : Engine) (k : Kept) :
    (slr_restore_resowner E).preserves (fun s => s.kept = k) := by
  unfold slr_restore_resowner
  repeat' (first
    | exact preserves_pure _ _
    | exact preserves_getW _
    | exact preserves_Assert _ _ _ _
    | exact preserves_record (fun w hw => by simpa [World.kept] using hw)
    | exact preserves_slr_log (fun w h hw => by simpa [World.kept] using hw)
    | exact preserves_modifyW (fun w hw => by simpa [World.kept] using hw)
    | apply preserves_bind
    | apply preserves_ite
    | intro _)

theorem exits_of_state {α : Type} {o : Outcome World α} {P : World → Prop}
    (h : P o.state) : o.exits P := by
  cases o <;> simp only [Outcome.exits] <;> exact h

/-- The classifier does not touch the nesting counters. -/
theorem slr_ProcessUtility_classify_level (parsetree : Node) (dest : CommandDest) (w : World) :
    (slr_ProcessUtility_classify parsetree dest w).state.slr_nest_executor_level
      = w.slr_nest_executor_level := by
  unfold slr_ProcessUtility_classify
  repeat' split
  all_goals rfl

theorem slr_ProcessUtility_after_kept (E : Engine) (dest : CommandDest) (ra a : Bool)
    (I : World → Prop) (hI : ∀ w, I w → I { w with slr_defered_save_resowner := false })
    (hsave : (slr_save_resowner E).preserves I)
    (hrel : (slr_release_savepoint E).preserves I)
    (hadd : (slr_add_savepoint E).preserves I)
    (hhost : ∀ w e hst, e.isManagerCall = false →
      I w → I { w with trace := w.trace ++ [e], host := hst }) :
    (slr_ProcessUtility_after E dest ra a).preserves I := by
  unfold slr_ProcessUtility_after
  repeat' (first
    | exact preserves_pure _ _
    | exact preserves_getW _
    | exact hsave
    | exact hrel
    | exact hadd
    | exact preserves_callHost (fun w h hw => hhost w _ h rfl hw)
    | exact preserves_modifyW hI
    | apply preserves_bind
    | apply preserves_ite
    | intro _)

/-- The level-raising bracket around a forwarded call (lines 409-426, 576-601,
612-629), evaluated. -/
theorem bracket_eq (h : Hook) (f : World → Outcome World Unit) (w : World) :
    (do
      modifyW (executor_level_add 1)
      PG_TRY
        (do
          forwardTo h f
          modifyW (executor_level_add (-1)))
        (executor_level_add (-1)) : Exec Unit) w
    = match f { executor_level_add 1 w with trace := w.trace ++ [.forward h] } with
      | .ok _ w1 => .ok () (executor_level_add (-1) w1)
      | .fault e w1 => .fault e (executor_level_add (-1) w1)
      | .abort m w1 => .abort m w1 := by
  simp only [bind, Exec.bind, modifyW, PG_TRY, forwardTo, executor_level_add]
  cases f _ <;> rfl

theorem slr_ExecutorRun_eq (E : Engine) (q : QueryDesc) (w : World) :
    slr_ExecutorRun E q w
    = match E.ExecutorRun q
        { executor_level_add 1 w with trace := w.trace ++ [.forward .ExecutorRun] } with
      | .ok _ w1 => .ok () (executor_level_add (-1) w1)
      | .fault e w1 => .fault e (executor_level_add (-1) w1)
      | .abort m w1 => .abort m w1 :=
  bracket_eq .ExecutorRun (E.ExecutorRun q) w

theorem slr_ExecutorFinish_eq (E : Engine) (q : QueryDesc) (w : World) :
    slr_ExecutorFinish E q w
    = match E.ExecutorFinish q
        { executor_level_add 1 w with trace := w.trace ++ [.forward .ExecutorFinish] } with
      | .ok _ w1 => .ok () (executor_level_add (-1) w1)
      | .fault e w1 => .fault e (executor_level_add (-1) w1)
      | .abort m w1 => .abort m w1 :=
  bracket_eq .ExecutorFinish (E.ExecutorFinish q) w

/-- The utility hook, evaluated up to its last part. -/
theorem slr_ProcessUtility_eq (E : Engine) (parsetree : Node) (dest : CommandDest) (w : World) :
    slr_ProcessUtility E parsetree dest w
    = match slr_ProcessUtility_classify parsetree dest w with
      | .ok intent w1 =>
        match E.ProcessUtility parsetree dest
            { executor_level_add 1 w1 with trace := w1.trace ++ [.forward .ProcessUtility] } with
        | .ok _ w2 =>
          slr_ProcessUtility_after E dest intent.1 intent.2 (executor_level_add (-1) w2)
        | .fault e w2 => .fault e (executor_level_add (-1) w2)
        | .abort m w2 => .abort m w2
      | .fault e w1 => .fault e w1
      | .abort m w1 => .abort m w1 := by
  simp only [slr_ProcessUtility, bind, Exec.bind, modifyW, PG_TRY, forwardTo, executor_level_add]
  cases slr_ProcessUtility_classify parsetree dest w with
  | ok intent w1 =>
    simp only []
    cases E.ProcessUtility parsetree dest _ <;> rfl
  | fault e w1 => rfl
  | abort m w1 => rfl

/-- What keeps the globals of `Kept` keeps the executor level. -/
theorem level_of_kept {α : Type} {x : Exec α} (n : Int)
    (hx : ∀ k, x.preserves (fun s => s.kept = k)) :
    x.preserves (fun s => s.slr_nest_executor_level = n) := by
  constructor
  intro w hw
  have := (hx w.kept).state w rfl
  have h2 := congrArg Kept.slr_nest_executor_level this
  simp only [World.kept] at h2
  rw [h2]; exact hw

theorem slr_ProcessUtility_after_level (E : Engine) (dest : CommandDest) (ra a : Bool) (n : Int) :
    (slr_ProcessUtility_after E dest ra a).preserves (fun s => s.slr_nest_executor_level = n) := by
  apply slr_ProcessUtility_after_kept
  · intro w hw; exact hw
  · exact level_of_kept _ (slr_save_resowner_kept E)
  · exact level_of_kept _ (slr_release_savepoint_kept E)
  · exact level_of_kept _ (slr_add_savepoint_kept E)
  · intro w e hst _ hw; exact hw

theorem preserves_liftExcept {α : Type} (r : Except Fault α) (I : World → Prop) :
    (liftExcept r).preserves I := by
  constructor
  intro w hw
  unfold liftExcept
  cases r <;> exact hw

theorem exits_keep_of_preserves {α : Type} {x : Exec α} {I : World → Prop}
    (h : x.preserves I) : x.exits_keep I :=
  fun w hw => exits_of_state (h.state w hw)

theorem exits_keep_bind {α β : Type} {x : Exec α} {f : α → Exec β} {I : World → Prop}
    (hx : x.exits_keep I) (hf : ∀ a, (f a).exits_keep I) : (x >>= f).exits_keep I := by
  intro w hw
  have h1 := hx w hw
  show (Exec.bind x f w).exits I
  unfold Exec.bind
  cases h : x w with
  | ok a w1 => rw [h] at h1; exact hf a w1 h1
  | fault e w1 => rw [h] at h1; exact h1
  | abort m w1 => trivial

theorem exits_keep_ite {α : Type} {c : Prop} [Decidable c] {x y : Exec α} {I : World → Prop}
    (hx : x.exits_keep I) (hy : y.exits_keep I) : (if c then x else y).exits_keep I := by
  split
  · exact hx
  · exact hy

theorem exits_keep_forwardTo {α : Type} {h : Hook} {f : World → Outcome World α}
    {I : World → Prop}
    (hf : ∀ w, I w → (f { w with trace := w.trace ++ [.forward h] }).exits I) :
    (forwardTo h f).exits_keep I :=
  fun w hw => hf w hw

/-- C1: every execution-stage hook leaves `slr_nest_executor_level` on exit
(return or error) as it found it, provided the forwarded call does; and the
utility, run and finish hooks do run the forwarded call, in a state whose level
is the entry level plus one: each of the three is the outcome of the forwarded
function applied to the entry state (for the utility hook, the state the
classifier left) with `slr_nest_executor_level` set to the entry value plus one
and the forwarding recorded, followed by the decrement. -/
theorem executor_level_restored (E : Engine) (parsetree : Node) (dest : CommandDest)
    (queryDesc : QueryDesc) (w : World)
    (hU : ∀ w1, (E.ProcessUtility parsetree dest w1).exits
      (fun s => s.slr_nest_executor_level = w1.slr_nest_executor_level))
    (hS : ∀ w1, (E.ExecutorStart queryDesc w1).exits
      (fun s => s.slr_nest_executor_level = w1.slr_nest_executor_level))
    (hR : ∀ w1, (E.ExecutorRun queryDesc w1).exits
      (fun s => s.slr_nest_executor_level = w1.slr_nest_executor_level))
    (hF : ∀ w1, (E.ExecutorFinish queryDesc w1).exits
      (fun s => s.slr_nest_executor_level = w1.slr_nest_executor_level))
    (hE : ∀ w1, (E.ExecutorEnd queryDesc w1).exits
      (fun s => s.slr_nest_executor_level = w1.slr_nest_executor_level)) :
    (slr_ProcessUtility E parsetree dest w).exits
        (fun s => s.slr_nest_executor_level = w.slr_nest_executor_level)
    ∧ (slr_ExecutorStart E queryDesc w).exits
        (fun s => s.slr_nest_executor_level = w.slr_nest_executor_level)
    ∧ (slr_ExecutorRun E queryDesc w).exits
        (fun s => s.slr_nest_executor_level = w.slr_nest_executor_level)
    ∧ (slr_ExecutorFinish E queryDesc w).exits
        (fun s => s.slr_nest_executor_level = w.slr_nest_executor_level)
    ∧ (slr_ExecutorEnd E queryDesc w).exits
        (fun s => s.slr_nest_executor_level = w.slr_nest_executor_level)
    ∧ (∀ intent wc, slr_ProcessUtility_classify parsetree dest w = .ok intent wc →
        slr_ProcessUtility E parsetree dest w
          = match E.ProcessUtility parsetree dest
              { wc with
                slr_nest_executor_level := w.slr_nest_executor_level + 1,
                trace := wc.trace ++ [.forward .ProcessUtility] } with
            | .ok _ w2 =>
              slr_ProcessUtility_after E dest intent.1 intent.2 (executor_level_add (-1) w2)
            | .fault e w2 => .fault e (executor_level_add (-1) w2)
            | .abort m w2 => .abort m w2)
    ∧ slr_ExecutorRun E queryDesc w
        = (match E.ExecutorRun queryDesc
            { w with
              slr_nest_executor_level := w.slr_nest_executor_level + 1,
              trace := w.trace ++ [.forward .ExecutorRun] } with
          | .ok _ w1 => .ok () (executor_level_add (-1) w1)
          | .fault e w1 => .fault e (executor_level_add (-1) w1)
          | .abort m w1 => .abort m w1)
    ∧ slr_ExecutorFinish E queryDesc w
        = (match E.ExecutorFinish queryDesc
            { w with
              slr_nest_executor_level := w.slr_nest_executor_level + 1,
              trace := w.trace ++ [.forward .ExecutorFinish] } with
          | .ok _ w1 => .ok () (executor_level_add (-1) w1)
          | .fault e w1 => .fault e (executor_level_add (-1) w1)
          | .abort m w1 => .abort m w1) := by
  refine ⟨?_, ?_, ?_, ?_, ?_, ?_, ?_, ?_⟩
  · -- utility
    rw [slr_ProcessUtility_eq]
    have hc := slr_ProcessUtility_classify_level parsetree dest w
    cases hcl : slr_ProcessUtility_classify parsetree dest w with
    | ok intent w1 =>
      rw [hcl] at hc
      simp only [Outcome.state] at hc
      simp only []
      have hf := hU { executor_level_add 1 w1 with
        trace := w1.trace ++ [.forward .ProcessUtility] }
      cases hfw : E.ProcessUtility parsetree dest
          { executor_level_add 1 w1 with trace := w1.trace ++ [.forward .ProcessUtility] } with
      | ok u w2 =>
        rw [hfw] at hf
        simp only [Outcome.exits, executor_level_add] at hf
        simp only []
        apply exits_of_state
        apply (slr_ProcessUtility_after_level E dest intent.1 intent.2 _).state
        simp only [executor_level_add, hf, hc]
        omega
      | fault e w2 =>
        rw [hfw] at hf
        simp only [Outcome.exits, executor_level_add] at hf
        simp only [Outcome.exits, executor_level_add, hf, hc]
        omega
      | abort m w2 => simp only [Outcome.exits]
    | fault e w1 =>
      rw [hcl] at hc
      simpa [Outcome.exits, Outcome.state] using hc
    | abort m w1 => simp only [Outcome.exits]
  · -- start
    have hk : (slr_ExecutorStart E queryDesc).exits_keep
        (fun s => s.slr_nest_executor_level = w.slr_nest_executor_level) := by
      unfold slr_ExecutorStart
      apply exits_keep_bind
      · exact exits_keep_forwardTo (fun w1 hw1 => by
          have h := hS { w1 with trace := w1.trace ++ [.forward .ExecutorStart] }
          simpa only [hw1] using h)
      · intro _
        apply exits_keep_of_preserves
        repeat' (first
          | exact preserves_pure _ _
          | exact preserves_getW _
          | exact preserves_liftExcept _ _
          | exact level_of_kept _ (slr_save_resowner_kept E)
          | exact preserves_modifyW (fun w hw => by simpa using hw)
          | apply preserves_bind
          | apply preserves_ite
          | intro _)
    exact hk w rfl
  · -- run
    rw [slr_ExecutorRun_eq]
    have hf := hR { executor_level_add 1 w with trace := w.trace ++ [.forward .ExecutorRun] }
    cases hfw : E.ExecutorRun queryDesc
        { executor_level_add 1 w with trace := w.trace ++ [.forward .ExecutorRun] } with
    | ok u w2 =>
      rw [hfw] at hf
      simp only [Outcome.exits, executor_level_add] at hf
      simp only [Outcome.exits, executor_level_add, hf]
      omega
    | fault e w2 =>
      rw [hfw] at hf
      simp only [Outcome.exits, executor_level_add] at hf
      simp only [Outcome.exits, executor_level_add, hf]
      omega
    | abort m w2 => simp only [Outcome.exits]
  · -- finish
    rw [slr_ExecutorFinish_eq]
    have hf := hF { executor_level_add 1 w with trace := w.trace ++ [.forward .ExecutorFinish] }
    cases hfw : E.ExecutorFinish queryDesc
        { executor_level_add 1 w with trace := w.trace ++ [.forward .ExecutorFinish] } with
    | ok u w2 =>
      rw [hfw] at hf
      simp only [Outcome.exits, executor_level_add] at hf
      simp only [Outcome.exits, executor_level_add, hf]
      omega
    | fault e w2 =>
      rw [hfw] at hf
      simp only [Outcome.exits, executor_level_add] at hf
      simp only [Outcome.exits, executor_level_add, hf]
      omega
    | abort m w2 => simp only [Outcome.exits]
  · -- end
    have hk : (slr_ExecutorEnd E queryDesc).exits_keep
        (fun s => s.slr_nest_executor_level = w.slr_nest_executor_level) := by
      unfold slr_ExecutorEnd
      apply exits_keep_bind
      · apply exits_keep_of_preserves
        unfold slr_ExecutorEnd_cond
        repeat' (first
          | exact preserves_pure _ _
          | exact preserves_getW _
          | exact preserves_liftExcept _ _
          | apply preserves_bind
          | apply preserves_ite
          | intro _)
      · intro rotate
        have hfw : (forwardTo .ExecutorEnd (E.ExecutorEnd queryDesc)).exits_keep
            (fun s => s.slr_nest_executor_level = w.slr_nest_executor_level) :=
          exits_keep_forwardTo (fun w1 hw1 => by
            have h := hE { w1 with trace := w1.trace ++ [.forward .ExecutorEnd] }
            simpa only [hw1] using h)
        repeat' (first
          | exact hfw
          | exact exits_keep_of_preserves (preserves_pure _ _)
          | exact exits_keep_of_preserves (level_of_kept _ (slr_release_savepoint_kept E))
          | exact exits_keep_of_preserves (level_of_kept _ (slr_add_savepoint_kept E))
          | exact exits_keep_of_preserves (preserves_modifyW (fun w hw => by simpa using hw))
          | apply exits_keep_bind
          | apply exits_keep_ite
          | intro _)
    exact hk w rfl
  · intro intent wc hcl
    have hc := slr_ProcessUtility_classify_level parsetree dest w
    rw [hcl] at hc
    simp only [Outcome.state] at hc
    rw [slr_ProcessUtility_eq, hcl]
    simp only [executor_level_add, hc]
  · exact slr_ExecutorRun_eq E queryDesc w
  · exact slr_ExecutorFinish_eq E queryDesc w

/-- The executor level is restored when the forwarded run call and the forwarded
utility call raise, from the initial session; the run hook raises the forwarded
call's error in the state that call was entered in, with the level back at 0. -/
theorem executor_level_restored_witness :
    (slr_ExecutorRun Engine.run_raises QueryDesc.empty World.initial).exits
        (fun s => s.slr_nest_executor_level = World.initial.slr_nest_executor_level)
    ∧ (slr_ProcessUtility Engine.run_raises (.other 0) .DestRemote World.initial).exits
        (fun s => s.slr_nest_executor_level = World.initial.slr_nest_executor_level)
    ∧ slr_ExecutorRun Engine.run_raises QueryDesc.empty World.initial
        = .fault (.engine_error 0) { World.initial with trace := [.forward .ExecutorRun] } :=
  have h := executor_level_restored Engine.run_raises (.other 0) .DestRemote QueryDesc.empty
    World.initial (fun _ => rfl) (fun _ => rfl) (fun _ => rfl) (fun _ => rfl) (fun _ => rfl)
  ⟨h.2.2.1, h.1, h.2.2.2.2.2.2.1.trans (by decide!)⟩

/-- The planner hook has no `PG_TRY`: when the forwarded planner call raises
(here without touching any global), the hook is left at once and
`slr_nest_planner_level` stays one above its entry value. -/
theorem slr_planner_fault (E : Engine) (parse : Query) (w : World) (e : Fault)
    (hP : ∀ w1, E.planner parse w1 = .fault e w1) :
    (slr_planner E parse w).state.slr_nest_planner_level = w.slr_nest_planner_level + 1 := by
  simp only [slr_planner, bind, Exec.bind, modifyW, forwardTo, hP, Outcome.state,
    planner_level_add]
  split <;> rfl

/-- C2 (code bug): entered at planner level 0 with a forwarded planner call that
raises, `slr_planner` exits with `slr_nest_planner_level = 1`; a later top-level
planning call that succeeds then ends at level 1 with `slr_planner_done` false. -/
theorem slr_planner_fault_leaves_level_raised :
    World.initial.slr_nest_planner_level = 0
    ∧ slr_planner Engine.planner_raises 0 World.initial
        = .fault (.engine_error 0)
            { World.initial with slr_nest_planner_level := 1, trace := [.forward .planner] }
    ∧ (slr_planner Engine.quiet 0
        { World.initial with slr_nest_planner_level := 1, trace := [.forward .planner] }).state.slr_nest_planner_level = 1
    ∧ (slr_planner Engine.quiet 0
        { World.initial with slr_nest_planner_level := 1, trace := [.forward .planner] }).state.slr_planner_done = false := by
  refine ⟨rfl, ?_, ?_, ?_⟩ <;> decide

theorem bind_record {α : Type} (e : Ev) (f : Unit → Exec α) (w : World) :
    (record e >>= f) w = f () { w with trace := w.trace ++ [e] } := rfl

theorem preserves_apply {α : Type} {x : Exec α} (I : World → Prop) (h : x.preserves I)
    (w : World) (hw : I w) : I (x w).state := h.state w hw

theorem managerCalls_append (t : List Ev) (e : Ev) :
    managerCalls (t ++ [e]) = managerCalls t ++ (if e.isManagerCall then [e] else []) := by
  unfold managerCalls
  rw [List.filter_append]
  cases h : e.isManagerCall <;> simp [List.filter, h]

/-- A call of `slr_release_savepoint` adds itself, and no other
savepoint-manager call, to the trace, however it ends. -/
theorem slr_release_savepoint_calls (E : Engine) (w : World) :
    managerCalls (slr_release_savepoint E w).state.trace
      = managerCalls w.trace ++ [.slr_release_savepoint] := by
  unfold slr_release_savepoint
  rw [bind_record]
  refine preserves_apply (fun s => managerCalls s.trace = managerCalls w.trace ++ [.slr_release_savepoint]) ?_ _ ?_
  · repeat' (first
      | exact preserves_pure _ _
      | exact preserves_getW _
      | exact preserves_Assert _ _ _ _
      | exact preserves_callHost (fun w h hw => by
          simpa [managerCalls_append, Ev.isManagerCall] using hw)
      | exact preserves_slr_log (fun w h hw => by simpa using hw)
      | exact preserves_modifyW (fun w hw => by simpa using hw)
      | apply preserves_bind
      | apply preserves_ite
      | intro _)
  · simp [managerCalls_append, Ev.isManagerCall]

theorem slr_save_resowner_calls (E : Engine) (w : World) :
    managerCalls (slr_save_resowner E w).state.trace
      = managerCalls w.trace ++ [.slr_save_resowner] := by
  unfold slr_save_resowner
  rw [bind_record]
  refine preserves_apply (fun s => managerCalls s.trace = managerCalls w.trace ++ [.slr_save_resowner]) ?_ _ ?_
  · repeat' (first
      | exact preserves_pure _ _
      | exact preserves_getW _
      | exact preserves_Assert _ _ _ _
      | exact preserves_modifyW (fun w hw => by simpa using hw)
      | apply preserves_bind
      | apply preserves_ite
      | intro _)
  · simp [managerCalls_append, Ev.isManagerCall]

theorem slr_add_savepoint_calls (E : Engine) (w : World) :
    managerCalls (slr_add_savepoint E w).state.trace
      = managerCalls w.trace ++ [.slr_add_savepoint] := by
  unfold slr_add_savepoint
  rw [bind_record]
  refine preserves_apply (fun s => managerCalls s.trace = managerCalls w.trace ++ [.slr_add_savepoint]) ?_ _ ?_
  · repeat' (first
      | exact preserves_pure _ _
      | exact preserves_getW _
      | exact preserves_elog_ERROR _ _
      | exact preserves_Assert _ _ _ _
      | exact preserves_callHost (fun w h hw => by
          simpa [managerCalls_append, Ev.isManagerCall] using hw)
      | exact preserves_record (fun w hw => by
          simpa [managerCalls_append, Ev.isManagerCall] using hw)
      | exact preserves_modifyW (fun w hw => by simpa using hw)
      | apply preserves_bind
      | apply preserves_ite
      | intro _
      | split)
  · simp [managerCalls_append, Ev.isManagerCall]

theorem slr_restore_resowner_calls (E : Engine) (w : World) :
    managerCalls (slr_restore_resowner E w).state.trace
      = managerCalls w.trace ++ [.slr_restore_resowner] := by
  unfold slr_restore_resowner
  rw [bind_record]
  refine preserves_apply (fun s => managerCalls s.trace = managerCalls w.trace ++ [.slr_restore_resowner]) ?_ _ ?_
  · repeat' (first
      | exact preserves_pure _ _
      | exact preserves_getW _
      | exact preserves_Assert _ _ _ _
      | exact preserves_slr_log (fun w h hw => by simpa using hw)
      | exact preserves_modifyW (fun w hw => by simpa using hw)
      | apply preserves_bind
      | apply preserves_ite
      | intro _)
  · simp [managerCalls_append, Ev.isManagerCall]

/-- The condition of `slr_ExecutorEnd`, evaluated, when `slr_is_write_query`
reports `b`. -/
theorem slr_ExecutorEnd_cond_eq (E : Engine) (q : QueryDesc) (w : World) (b : Bool)
    (hq : slr_is_write_query E.PG_VERSION_NUM q = .ok b) :
    slr_ExecutorEnd_cond E q w
      = .ok (!IN_PARALLEL_WORKER w && w.slr_enabled && w.slr_nest_executor_level == 0
          && w.slr_planner_done
          && (!w.slr_enable_writeonly || w.slr_defered_save_resowner || b)) w := by
  unfold slr_ExecutorEnd_cond
  cases hp : IN_PARALLEL_WORKER w <;> cases he : w.slr_enabled
    <;> cases hl : (w.slr_nest_executor_level == 0) <;> cases hd : w.slr_planner_done
    <;> cases hw : w.slr_enable_writeonly <;> cases hf : w.slr_defered_save_resowner
    <;> simp [hp, he, hl, hd, hw, hf, hq, bind, Exec.bind, getW, liftExcept, pure, Exec.pure]

/-- C3: when `slr_is_write_query` reports `b` for the statement, the end hook
rotates the savepoint if and only if this is not a parallel worker, the extension
is enabled, the executor level is 0, planning is complete and write-only mode is
off or the deferred flag is set or `b` is true.  If so it runs
`slr_release_savepoint` on the entry state, `slr_add_savepoint` on the state that
leaves, clears the deferred flag and only then forwards; the only manager calls
made are that release and that add, in this order.  If not, the forwarded call
receives the entry state itself (no manager call, no global changed). -/
theorem slr_ExecutorEnd_rotates_iff (E : Engine) (q : QueryDesc) (w : World) (b : Bool)
    (hq : slr_is_write_query E.PG_VERSION_NUM q = .ok b) :
    ((!IN_PARALLEL_WORKER w && w.slr_enabled && w.slr_nest_executor_level == 0
          && w.slr_planner_done
          && (!w.slr_enable_writeonly || w.slr_defered_save_resowner || b)) = true →
      ∀ w1 w2, slr_release_savepoint E w = .ok () w1 → slr_add_savepoint E w1 = .ok () w2 →
        slr_ExecutorEnd E q w
          = E.ExecutorEnd q { w2 with
              slr_defered_save_resowner := false,
              trace := w2.trace ++ [.forward .ExecutorEnd] }
        ∧ managerCalls w2.trace
          = managerCalls w.trace ++ [.slr_release_savepoint, .slr_add_savepoint])
    ∧ ((!IN_PARALLEL_WORKER w && w.slr_enabled && w.slr_nest_executor_level == 0
          && w.slr_planner_done
          && (!w.slr_enable_writeonly || w.slr_defered_save_resowner || b)) = false →
        slr_ExecutorEnd E q w
          = E.ExecutorEnd q { w with trace := w.trace ++ [.forward .ExecutorEnd] }) := by
  constructor
  · intro hc w1 w2 hr ha
    constructor
    · simp only [slr_ExecutorEnd, bind, Exec.bind, slr_ExecutorEnd_cond_eq E q w b hq, hc,
        hr, ha, modifyW, forwardTo, if_true]
    · have h1 := slr_release_savepoint_calls E w
      have h2 := slr_add_savepoint_calls E w1
      rw [hr] at h1
      rw [ha] at h2
      simp only [Outcome.state] at h1 h2
      rw [h2, h1, List.append_assoc]
      rfl
  · intro hc
    simp only [slr_ExecutorEnd, bind, Exec.bind, slr_ExecutorEnd_cond_eq E q w b hq, hc,
      forwardTo, pure, Exec.pure]
    rfl

/-- The end hook rotating the savepoint at the end of a statement whose nested
write set the deferred flag. -/
theorem slr_ExecutorEnd_rotates_iff_witness :
    slr_ExecutorEnd Engine.quiet QueryDesc.empty World.rotating
      = .ok () { World.rotating with
          slr_defered_save_resowner := false,
          oldresowner := none, slrPortalContext := none,
          newresowner := some 101,
          host := { Host.running with xact := 1 },
          resetCallbacks := [(10, .slr_restore_resowner)],
          trace := [.slr_release_savepoint, .ReleaseSavepoint "PgSLRAutoSvpt",
            .CommitTransactionCommand, .CommandCounterIncrement,
            .slr_add_savepoint, .DefineSavepoint "PgSLRAutoSvpt",
            .CommitTransactionCommand, .CommandCounterIncrement,
            .MemoryContextRegisterResetCallback 10, .forward .ExecutorEnd] } :=
  ((slr_ExecutorEnd_rotates_iff Engine.quiet QueryDesc.empty World.rotating false rfl).1
    (by decide) _ _ rfl rfl).1.trans (by decide)

/-- `slr_add_savepoint` with its preconditions met and the engine calls
returning, evaluated. -/
theorem slr_add_savepoint_eq (E : Engine) (w : World) (s : ResourceOwner)
    (c : MemoryContext) (h1 h2 h3 : Host)
    (hen : w.slr_enabled = true) (hop : w.slr_xact_opened = true)
    (hlv : w.slr_nest_executor_level = 0) (hold : w.oldresowner = some s)
    (hctx : w.slrPortalContext = some c)
    (hd : E.DefineSavepoint w.slr_savepoint_name w.host = .ok () h1)
    (hc : E.CommitTransactionCommand h1 = .ok () h2)
    (hi : E.CommandCounterIncrement h2 = .ok () h3) :
    slr_add_savepoint E w = .ok () { w with
      newresowner := h3.CurrentResourceOwner,
      host := { h3 with CurrentResourceOwner := some s },
      oldresowner := none,
      slrPortalContext := none,
      slr_pending := true,
      resetCallbacks := w.resetCallbacks ++ [(c, .slr_restore_resowner)],
      trace := w.trace ++ [.slr_add_savepoint, .DefineSavepoint w.slr_savepoint_name,
        .CommitTransactionCommand, .CommandCounterIncrement,
        .MemoryContextRegisterResetCallback c] } := by
  simp [slr_add_savepoint, bind, Exec.bind, record, modifyW, Assert, getW, callHost,
    elog_ERROR, pure, Exec.pure, hen, hop, hlv, hold, hctx, hd, hc, hi]

/-- C4: called with the extension enabled, the transaction open, executor
level 0, `oldresowner = some s` and a captured context `c`, and with the three
engine calls returning, `slr_add_savepoint` calls `DefineSavepoint` with the
configured name, then `CommitTransactionCommand`, then `CommandCounterIncrement`;
it returns with `newresowner` the resource owner the engine made current,
`CurrentResourceOwner = some s`, `oldresowner` empty, one more reset callback
(running `slr_restore_resowner`, on `c`), `slrPortalContext` cleared and
`slr_pending` set; the other globals of the extension are unchanged. -/
theorem slr_add_savepoint_effect (E : Engine) (w : World) (s : ResourceOwner)
    (c : MemoryContext) (h1 h2 h3 : Host)
    (hen : w.slr_enabled = true) (hop : w.slr_xact_opened = true)
    (hlv : w.slr_nest_executor_level = 0) (hold : w.oldresowner = some s)
    (hctx : w.slrPortalContext = some c)
    (hd : E.DefineSavepoint w.slr_savepoint_name w.host = .ok () h1)
    (hc : E.CommitTransactionCommand h1 = .ok () h2)
    (hi : E.CommandCounterIncrement h2 = .ok () h3) :
    ∃ w1, slr_add_savepoint E w = .ok () w1
      ∧ w1.trace = w.trace ++ [.slr_add_savepoint, .DefineSavepoint w.slr_savepoint_name,
          .CommitTransactionCommand, .CommandCounterIncrement,
          .MemoryContextRegisterResetCallback c]
      ∧ w1.newresowner = h3.CurrentResourceOwner
      ∧ w1.host.CurrentResourceOwner = some s
      ∧ w1.oldresowner = none
      ∧ w1.resetCallbacks = w.resetCallbacks ++ [(c, .slr_restore_resowner)]
      ∧ w1.slrPortalContext = none
      ∧ w1.slr_pending = true
      ∧ w1.kept = w.kept :=
  ⟨_, slr_add_savepoint_eq E w s c h1 h2 h3 hen hop hlv hold hctx hd hc hi,
    rfl, rfl, rfl, rfl, rfl, rfl, rfl, rfl⟩

/-- `slr_add_savepoint` after a save, with the quiet engine. -/
theorem slr_add_savepoint_effect_witness :
    ∃ w1, slr_add_savepoint Engine.quiet World.saved = .ok () w1
      ∧ w1.trace = World.saved.trace ++ [.slr_add_savepoint,
          .DefineSavepoint World.saved.slr_savepoint_name,
          .CommitTransactionCommand, .CommandCounterIncrement,
          .MemoryContextRegisterResetCallback 10]
      ∧ w1.newresowner = some 101
      ∧ w1.host.CurrentResourceOwner = some 1
      ∧ w1.oldresowner = none
      ∧ w1.resetCallbacks = World.saved.resetCallbacks ++ [(10, .slr_restore_resowner)]
      ∧ w1.slrPortalContext = none
      ∧ w1.slr_pending = true
      ∧ w1.kept = World.saved.kept :=
  slr_add_savepoint_effect Engine.quiet World.saved 1 10
    { Host.running with xact := 1 }
    { Host.running with xact := 1, CurrentResourceOwner := some 101 }
    { Host.running with xact := 1, CurrentResourceOwner := some 101 }
    rfl rfl rfl rfl rfl rfl rfl rfl

/-- `slr_save_resowner` with its preconditions met, evaluated. -/
theorem slr_save_resowner_eq (E : Engine) (w : World)
    (hlv : w.slr_nest_executor_level = 0) (hold : w.oldresowner = none) :
    slr_save_resowner E w = .ok ()
      (if w.slr_enabled && w.slr_xact_opened then
        { w with
          oldresowner := w.host.CurrentResourceOwner,
          slrPortalContext := w.host.PortalContext,
          trace := w.trace ++ [.slr_save_resowner] }
      else { w with trace := w.trace ++ [.slr_save_resowner] }) := by
  cases he : w.slr_enabled <;> cases ho : w.slr_xact_opened <;>
    simp [slr_save_resowner, bind, Exec.bind, record, modifyW, Assert, getW, pure, Exec.pure,
      hlv, hold, he, ho]

/-- `slr_restore_resowner` at executor level 0, evaluated. -/
theorem slr_restore_resowner_eq (E : Engine) (w : World)
    (hlv : w.slr_nest_executor_level = 0) :
    slr_restore_resowner E w = .ok ()
      (if w.slr_enabled && w.slr_xact_opened && w.newresowner.isSome then
        { w with
          host := { w.host with CurrentResourceOwner := w.newresowner },
          newresowner := none,
          trace := w.trace ++ [.slr_restore_resowner],
          serverLog := w.serverLog ++ slr_log_lines "SAVEPOINT" w.slr_savepoint_name
            { w.host with CurrentResourceOwner := w.newresowner } }
      else { w with trace := w.trace ++ [.slr_restore_resowner] }) := by
  cases he : w.slr_enabled <;> cases ho : w.slr_xact_opened <;> cases hn : w.newresowner <;>
    simp [slr_restore_resowner, bind, Exec.bind, record, modifyW, Assert, getW, pure, Exec.pure,
      slr_log, hlv, he, ho, hn]

/-- C5: with the extension enabled, the transaction open, executor level 0 and
`oldresowner` empty (whatever `newresowner` holds, so in particular when both
are empty), in a backend that has a current
resource owner `s` and a portal context `c`, and with an engine whose savepoint
calls return and make the resource owner `n` current: `slr_save_resowner`, then
`slr_add_savepoint`, then the registered callback `slr_restore_resowner` all
return; the callback is registered on `c`; and at the end
`CurrentResourceOwner` is `n` while `oldresowner` and `newresowner` are empty. -/
theorem resowner_round_trip (E : Engine) (w : World) (s n : ResourceOwner)
    (c : MemoryContext) (h1 h2 h3 : Host)
    (hen : w.slr_enabled = true) (hop : w.slr_xact_opened = true)
    (hlv : w.slr_nest_executor_level = 0)
    (hold : w.oldresowner = none)
    (hcro : w.host.CurrentResourceOwner = some s) (hpc : w.host.PortalContext = some c)
    (hd : E.DefineSavepoint w.slr_savepoint_name w.host = .ok () h1)
    (hc : E.CommitTransactionCommand h1 = .ok () h2)
    (hi : E.CommandCounterIncrement h2 = .ok () h3)
    (hn : h3.CurrentResourceOwner = some n) :
    ∃ w1 w2 w3,
      slr_save_resowner E w = .ok () w1
      ∧ slr_add_savepoint E w1 = .ok () w2
      ∧ slr_restore_resowner E w2 = .ok () w3
      ∧ w2.resetCallbacks = w.resetCallbacks ++ [(c, .slr_restore_resowner)]
      ∧ w2.host.CurrentResourceOwner = some s
      ∧ w3.host.CurrentResourceOwner = some n
      ∧ w3.oldresowner = none
      ∧ w3.newresowner = none := by
  have e1 := slr_save_resowner_eq E w hlv hold
  rw [if_pos (by simp [hen, hop])] at e1
  have e2 := slr_add_savepoint_eq E
    { w with
      oldresowner := w.host.CurrentResourceOwner,
      slrPortalContext := w.host.PortalContext,
      trace := w.trace ++ [.slr_save_resowner] }
    s c h1 h2 h3 hen hop hlv hcro hpc hd hc hi
  have e3 := slr_restore_resowner_eq E
    { w with
      newresowner := h3.CurrentResourceOwner,
      host := { h3 with CurrentResourceOwner := some s },
      oldresowner := none,
      slrPortalContext := none,
      slr_pending := true,
      resetCallbacks := w.resetCallbacks ++ [(c, .slr_restore_resowner)],
      trace := w.trace ++ [.slr_save_resowner] ++ [.slr_add_savepoint,
        .DefineSavepoint w.slr_savepoint_name,
        .CommitTransactionCommand, .CommandCounterIncrement,
        .MemoryContextRegisterResetCallback c] }
    hlv
  rw [if_pos (by simp [hen, hop, hn])] at e3
  exact ⟨_, _, _, e1, e2, e3, rfl, rfl, hn, rfl, rfl⟩

/-- The round trip in an open transaction with the quiet engine. -/
theorem resowner_round_trip_witness :
    ∃ w1 w2 w3,
      slr_save_resowner Engine.quiet World.open_pending = .ok () w1
      ∧ slr_add_savepoint Engine.quiet w1 = .ok () w2
      ∧ slr_restore_resowner Engine.quiet w2 = .ok () w3
      ∧ w2.resetCallbacks = World.open_pending.resetCallbacks ++ [(10, .slr_restore_resowner)]
      ∧ w2.host.CurrentResourceOwner = some 1
      ∧ w3.host.CurrentResourceOwner = some 101
      ∧ w3.oldresowner = none
      ∧ w3.newresowner = none :=
  resowner_round_trip Engine.quiet World.open_pending 1 101 10
    { Host.running with xact := 1 }
    { Host.running with xact := 1, CurrentResourceOwner := some 101 }
    { Host.running with xact := 1, CurrentResourceOwner := some 101 }
    rfl rfl rfl rfl rfl rfl rfl rfl rfl rfl

/-- C6: at executor level 0, `slr_release_savepoint` with `slr_pending` false
returns without calling the engine or changing any global (only its own entry is
recorded); with the extension enabled, the transaction open and `slr_pending`
true, and the engine calls returning, it calls `ReleaseSavepoint` with the
configured name, then `CommitTransactionCommand` and `CommandCounterIncrement`,
and returns with `slr_pending` false; `slr_xact_opened`, `oldresowner` and
`newresowner` are as before. -/
theorem slr_release_savepoint_effect (E : Engine) (w : World)
    (hlv : w.slr_nest_executor_level = 0) :
    (w.slr_pending = false →
      slr_release_savepoint E w
        = .ok () { w with trace := w.trace ++ [.slr_release_savepoint] })
    ∧ (w.slr_enabled = true → w.slr_xact_opened = true → w.slr_pending = true →
      ∀ h1 h2 h3 : Host,
        E.ReleaseSavepoint w.slr_savepoint_name w.host = .ok () h1 →
        E.CommitTransactionCommand h1 = .ok () h2 →
        E.CommandCounterIncrement h2 = .ok () h3 →
        slr_release_savepoint E w = .ok () { w with
          slr_pending := false,
          host := h3,
          trace := w.trace ++ [.slr_release_savepoint,
            .ReleaseSavepoint w.slr_savepoint_name,
            .CommitTransactionCommand, .CommandCounterIncrement],
          serverLog := w.serverLog ++ slr_log_lines "RELEASE" w.slr_savepoint_name h3 }) := by
  constructor
  · intro hp
    simp [slr_release_savepoint, bind, Exec.bind, record, modifyW, Assert, getW, pure,
      Exec.pure, hlv, hp]
  · intro hen hop hp h1 h2 h3 hr hc hi
    simp [slr_release_savepoint, bind, Exec.bind, record, modifyW, Assert, getW, callHost,
      slr_log, hlv, hp, hen, hop, hr, hc, hi]

/-- `slr_release_savepoint` with a savepoint pending, and with none. -/
theorem slr_release_savepoint_effect_witness :
    slr_release_savepoint Engine.quiet World.open_pending
        = .ok () { World.open_pending with
            slr_pending := false,
            host := { Host.running with CurrentResourceOwner := some 100 },
            trace := [.slr_release_savepoint, .ReleaseSavepoint "PgSLRAutoSvpt",
              .CommitTransactionCommand, .CommandCounterIncrement] }
    ∧ slr_release_savepoint Engine.quiet World.saved
        = .ok () { World.saved with trace := [.slr_release_savepoint] } :=
  ⟨((slr_release_savepoint_effect Engine.quiet World.open_pending rfl).2 rfl rfl rfl
      _ _ _ rfl rfl rfl).trans (by decide),
    (slr_release_savepoint_effect Engine.quiet World.saved rfl).1 rfl⟩

/-- Outside an open transaction, or with the extension disabled,
`slr_save_resowner` changes nothing but the trace, however it ends. -/
theorem slr_save_resowner_closed (E : Engine) (w : World)
    (h : (w.slr_enabled && w.slr_xact_opened) = false) :
    (slr_save_resowner E w).state = { w with trace := w.trace ++ [.slr_save_resowner] } := by
  cases ha : E.USE_ASSERT_CHECKING <;> cases ho : w.oldresowner
    <;> by_cases hl : w.slr_nest_executor_level = 0
    <;> simp [slr_save_resowner, bind, Exec.bind, record, modifyW, Assert, getW, pure,
      Exec.pure, h, ha, ho, hl, Outcome.state]

theorem slr_release_savepoint_closed (E : Engine) (w : World)
    (h : (w.slr_enabled && w.slr_xact_opened) = false) :
    (slr_release_savepoint E w).state
      = { w with trace := w.trace ++ [.slr_release_savepoint] } := by
  cases ha : E.USE_ASSERT_CHECKING
    <;> by_cases hl : w.slr_nest_executor_level = 0
    <;> simp [slr_release_savepoint, bind, Exec.bind, record, modifyW, Assert, getW, pure,
      Exec.pure, h, ha, hl, Outcome.state]

theorem slr_add_savepoint_closed (E : Engine) (w : World)
    (h : (w.slr_enabled && w.slr_xact_opened) = false) :
    (slr_add_savepoint E w).state = { w with trace := w.trace ++ [.slr_add_savepoint] } := by
  cases ha : E.USE_ASSERT_CHECKING
    <;> by_cases hl : w.slr_nest_executor_level = 0
    <;> simp [slr_add_savepoint, bind, Exec.bind, record, modifyW, Assert, getW, pure,
      Exec.pure, h, ha, hl, Outcome.state]

/-- While the transaction is marked closed, the last part of the utility hook
changes neither `slr_xact_opened` nor `slr_pending`. -/
theorem slr_ProcessUtility_after_closed (E : Engine) (dest : CommandDest) (ra a : Bool)
    (p : Bool) :
    (slr_ProcessUtility_after E dest ra a).preserves
      (fun s => s.slr_xact_opened = false ∧ s.slr_pending = p) := by
  apply slr_ProcessUtility_after_kept
  · intro w hw; exact hw
  · constructor
    intro w hw
    rw [slr_save_resowner_closed E w (by simp [hw.1])]
    exact hw
  · constructor
    intro w hw
    rw [slr_release_savepoint_closed E w (by simp [hw.1])]
    exact hw
  · constructor
    intro w hw
    rw [slr_add_savepoint_closed E w (by simp [hw.1])]
    exact hw
  · intro w e hst _ hw; exact hw

/-- The classifier on `COMMIT`, `ROLLBACK`, `COMMIT PREPARED` and
`ROLLBACK PREPARED` (lines 319-327). -/
theorem classify_ends_transaction (kind : TransactionStmtKind) (name : Option String)
    (dest : CommandDest) (w : World) (hint : internal_call dest w = false)
    (hk : kind.ends_transaction = true) :
    slr_ProcessUtility_classify (.TransactionStmt kind name) dest w
      = .ok (false, false) { w with slr_xact_opened := false, slr_pending := false } := by
  cases kind <;> simp only [TransactionStmtKind.ends_transaction] at hk <;>
    first
    | exact absurd hk (by decide)
    | simp [slr_ProcessUtility_classify, hint]

/-- The classifier on `PREPARE TRANSACTION` (lines 295-302). -/
theorem classify_prepare (name : Option String) (dest : CommandDest) (w : World)
    (hint : internal_call dest w = false) :
    slr_ProcessUtility_classify (.TransactionStmt .TRANS_STMT_PREPARE name) dest w
      = .ok (false, false) { w with slr_xact_opened := false } := by
  simp [slr_ProcessUtility_classify, hint]

/-- C7 (counterexample): `PREPARE TRANSACTION` processed on a remote destination
in a session with a pending savepoint leaves `slr_pending` true while the
transaction is marked closed. -/
theorem slr_pending_survives_prepare :
    slr_ProcessUtility Engine.quiet (.TransactionStmt .TRANS_STMT_PREPARE none) .DestRemote
        World.open_pending
      = .ok () { World.open_pending with
          slr_xact_opened := false, trace := [.forward .ProcessUtility] }
    ∧ ({ World.open_pending with
          slr_xact_opened := false, trace := [.forward .ProcessUtility] } : World).slr_pending
        = true := by
  constructor <;> decide

/-- C7 (amended): in a regular backend, on a destination other than SPI, with a
forwarded call that leaves `slr_xact_opened` and `slr_pending` as it finds them:
when the utility hook returns or raises after `COMMIT`, `ROLLBACK`,
`COMMIT PREPARED` or `ROLLBACK PREPARED`, both `slr_pending` and
`slr_xact_opened` are false; after `PREPARE TRANSACTION`, `slr_xact_opened` is
false. -/
theorem transaction_end_clears (E : Engine) (kind : TransactionStmtKind)
    (name : Option String) (dest : CommandDest) (w : World)
    (hint : internal_call dest w = false)
    (hfw : ∀ w1, (E.ProcessUtility (.TransactionStmt kind name) dest w1).exits
      (fun s => s.slr_xact_opened = w1.slr_xact_opened ∧ s.slr_pending = w1.slr_pending)) :
    (kind.ends_transaction = true →
      (slr_ProcessUtility E (.TransactionStmt kind name) dest w).exits
        (fun s => s.slr_xact_opened = false ∧ s.slr_pending = false))
    ∧ (kind = .TRANS_STMT_PREPARE →
      (slr_ProcessUtility E (.TransactionStmt kind name) dest w).exits
        (fun s => s.slr_xact_opened = false)) := by
  have key : ∀ (p : Bool) (w1 : World) (i : Bool × Bool),
      slr_ProcessUtility_classify (.TransactionStmt kind name) dest w = .ok i w1 →
      w1.slr_xact_opened = false → w1.slr_pending = p →
      (slr_ProcessUtility E (.TransactionStmt kind name) dest w).exits
        (fun s => s.slr_xact_opened = false ∧ s.slr_pending = p) := by
    intro p w1 i hcl ho hp
    rw [slr_ProcessUtility_eq, hcl]
    simp only []
    have hf := hfw { executor_level_add 1 w1 with
      trace := w1.trace ++ [.forward .ProcessUtility] }
    cases hr : E.ProcessUtility (.TransactionStmt kind name) dest
        { executor_level_add 1 w1 with trace := w1.trace ++ [.forward .ProcessUtility] } with
    | ok u w2 =>
      rw [hr] at hf
      simp only [Outcome.exits, executor_level_add, ho, hp] at hf
      simp only []
      apply exits_of_state
      exact (slr_ProcessUtility_after_closed E dest i.1 i.2 p).state _ hf
    | fault e w2 =>
      rw [hr] at hf
      simp only [Outcome.exits, executor_level_add, ho, hp] at hf
      exact hf
    | abort m w2 => trivial
  constructor
  · intro hk
    exact key false _ (false, false) (classify_ends_transaction kind name dest w hint hk)
      rfl rfl
  · intro hk
    subst hk
    have h := key w.slr_pending _ (false, false) (classify_prepare name dest w hint) rfl rfl
    cases hr : slr_ProcessUtility E (.TransactionStmt .TRANS_STMT_PREPARE name) dest w with
    | ok u s => rw [hr] at h; exact h.1
    | fault e s => rw [hr] at h; exact h.1
    | abort m s => trivial

/-- `COMMIT` in an open transaction with a savepoint pending. -/
theorem transaction_end_clears_witness :
    (slr_ProcessUtility Engine.quiet (.TransactionStmt .TRANS_STMT_COMMIT none) .DestRemote
        World.open_pending).exits
      (fun s => s.slr_xact_opened = false ∧ s.slr_pending = false) :=
  (transaction_end_clears Engine.quiet .TRANS_STMT_COMMIT none .DestRemote World.open_pending
    rfl (fun _ => ⟨rfl, rfl⟩)).1 rfl

/-- The last part of the utility hook when `release_add_savepoint` is set and
the three manager functions return: they run in the order save, release, add,
each on the state the one before left, and the deferred flag is cleared. -/
theorem slr_ProcessUtility_after_rotate (E : Engine) (dest : CommandDest) (a : Bool)
    (w w1 w2 w3 : World) (hint : internal_call dest w = false)
    (hs : slr_save_resowner E w = .ok () w1)
    (hr : slr_release_savepoint E w1 = .ok () w2)
    (ha : slr_add_savepoint E w2 = .ok () w3) :
    slr_ProcessUtility_after E dest true a w
        = .ok () { w3 with slr_defered_save_resowner := false }
    ∧ managerCalls w3.trace
        = managerCalls w.trace
          ++ [.slr_save_resowner, .slr_release_savepoint, .slr_add_savepoint] := by
  constructor
  · simp only [slr_ProcessUtility_after, bind, Exec.bind, getW, hint, hs, hr, ha, modifyW,
      if_true, Bool.false_eq_true, if_false]
  · have c1 := slr_save_resowner_calls E w
    have c2 := slr_release_savepoint_calls E w1
    have c3 := slr_add_savepoint_calls E w2
    rw [hs] at c1
    rw [hr] at c2
    rw [ha] at c3
    simp only [Outcome.state] at c1 c2 c3
    rw [c3, c2, c1]
    simp only [List.append_assoc, List.singleton_append, List.cons_append, List.nil_append]

/-- The last part of the utility hook when only `add_savepoint` is set and every
call returns: save, then `CommitTransactionCommand` and
`CommandCounterIncrement`, then add; no release. -/
theorem slr_ProcessUtility_after_add (E : Engine) (dest : CommandDest)
    (w w1 w2 : World) (h1 h2 : Host) (hint : internal_call dest w = false)
    (hs : slr_save_resowner E w = .ok () w1)
    (hc : E.CommitTransactionCommand w1.host = .ok () h1)
    (hi : E.CommandCounterIncrement h1 = .ok () h2)
    (ha : slr_add_savepoint E
      { w1 with
        trace := w1.trace ++ [.CommitTransactionCommand] ++ [.CommandCounterIncrement],
        host := h2 } = .ok () w2) :
    slr_ProcessUtility_after E dest false true w
        = .ok () { w2 with slr_defered_save_resowner := false }
    ∧ managerCalls w2.trace
        = managerCalls w.trace ++ [.slr_save_resowner, .slr_add_savepoint] := by
  constructor
  · simp only [slr_ProcessUtility_after, bind, Exec.bind, getW, hint, hs, callHost, hc, hi,
      ha, modifyW, if_true, Bool.false_eq_true, if_false]
  · have c1 := slr_save_resowner_calls E w
    have c3 := slr_add_savepoint_calls E
      { w1 with
        trace := w1.trace ++ [.CommitTransactionCommand] ++ [.CommandCounterIncrement],
        host := h2 }
    rw [hs] at c1
    rw [ha] at c3
    simp only [Outcome.state] at c1 c3
    rw [c3, managerCalls_append, managerCalls_append, c1]
    simp only [Ev.isManagerCall, Bool.false_eq_true, if_false, List.append_nil,
      List.append_assoc, List.singleton_append]

/-- The classifier on `BEGIN` and `START TRANSACTION` (lines 303-318). -/
theorem classify_begin (kind : TransactionStmtKind) (name : Option String)
    (dest : CommandDest) (w : World) (hint : internal_call dest w = false)
    (hk : kind = .TRANS_STMT_BEGIN ∨ kind = .TRANS_STMT_START) :
    slr_ProcessUtility_classify (.TransactionStmt kind name) dest w
      = .ok (false, w.slr_enabled && w.slr_nest_executor_level == 0 && !w.slr_xact_opened)
          { w with slr_xact_opened := true } := by
  rcases hk with hk | hk <;> subst hk <;> simp [slr_ProcessUtility_classify, hint]

theorem internal_call_level (dest : CommandDest) (w : World) (d : Int) :
    internal_call dest (executor_level_add d w) = internal_call dest w := rfl

/-- What keeps the globals of `Kept` keeps `slr_xact_opened`. -/
theorem opened_of_kept {α : Type} {x : Exec α} (b : Bool)
    (hx : ∀ k, x.preserves (fun s => s.kept = k)) :
    x.preserves (fun s => s.slr_xact_opened = b) := by
  constructor
  intro w hw
  have := (hx w.kept).state w rfl
  have h2 := congrArg Kept.slr_xact_opened this
  simp only [World.kept] at h2
  rw [h2]; exact hw

/-- C8: for `BEGIN` and `START TRANSACTION` in a regular backend on a
destination other than SPI: the classifier marks the transaction open and sets
`add_savepoint` exactly when the extension is enabled, the executor level is 0
and the transaction was not open; the hook exits with the transaction marked
open whenever the forwarded call leaves that mark alone; and when
`add_savepoint` is set and the forwarded call returns, the hook runs
`slr_save_resowner`, then `CommitTransactionCommand` and
`CommandCounterIncrement`, then `slr_add_savepoint` (each on the state the step
before left, provided it returns) and no `slr_release_savepoint`. -/
theorem begin_adds_savepoint (E : Engine) (kind : TransactionStmtKind)
    (name : Option String) (dest : CommandDest) (w : World)
    (hk : kind = .TRANS_STMT_BEGIN ∨ kind = .TRANS_STMT_START)
    (hint : internal_call dest w = false) :
    slr_ProcessUtility_classify (.TransactionStmt kind name) dest w
      = .ok (false, w.slr_enabled && w.slr_nest_executor_level == 0 && !w.slr_xact_opened)
          { w with slr_xact_opened := true }
    ∧ ((∀ w1, (E.ProcessUtility (.TransactionStmt kind name) dest w1).exits
          (fun s => s.slr_xact_opened = w1.slr_xact_opened)) →
        (slr_ProcessUtility E (.TransactionStmt kind name) dest w).exits
          (fun s => s.slr_xact_opened = true))
    ∧ ((w.slr_enabled && w.slr_nest_executor_level == 0 && !w.slr_xact_opened) = true →
        ∀ (w2 w3 w4 : World) (h1 h2 : Host),
          E.ProcessUtility (.TransactionStmt kind name) dest
            { executor_level_add 1 { w with slr_xact_opened := true } with
              trace := w.trace ++ [.forward .ProcessUtility] } = .ok () w2 →
          internal_call dest w2 = false →
          slr_save_resowner E (executor_level_add (-1) w2) = .ok () w3 →
          E.CommitTransactionCommand w3.host = .ok () h1 →
          E.CommandCounterIncrement h1 = .ok () h2 →
          slr_add_savepoint E
            { w3 with
              trace := w3.trace ++ [.CommitTransactionCommand] ++ [.CommandCounterIncrement],
              host := h2 } = .ok () w4 →
          slr_ProcessUtility E (.TransactionStmt kind name) dest w
              = .ok () { w4 with slr_defered_save_resowner := false }
          ∧ managerCalls w4.trace
              = managerCalls w2.trace ++ [.slr_save_resowner, .slr_add_savepoint]) := by
  have hcl := classify_begin kind name dest w hint hk
  refine ⟨hcl, ?_, ?_⟩
  · intro hfw
    rw [slr_ProcessUtility_eq, hcl]
    simp only []
    have hf := hfw { executor_level_add 1 { w with slr_xact_opened := true } with
      trace := w.trace ++ [.forward .ProcessUtility] }
    cases hr : E.ProcessUtility (.TransactionStmt kind name) dest
        { executor_level_add 1 { w with slr_xact_opened := true } with
          trace := w.trace ++ [.forward .ProcessUtility] } with
    | ok u w2 =>
      rw [hr] at hf
      simp only [Outcome.exits, executor_level_add] at hf
      simp only []
      apply exits_of_state
      refine (slr_ProcessUtility_after_kept E dest _ _ (fun s => s.slr_xact_opened = true)
        (fun _ h => h) (opened_of_kept _ (slr_save_resowner_kept E))
        (opened_of_kept _ (slr_release_savepoint_kept E))
        (opened_of_kept _ (slr_add_savepoint_kept E)) (fun _ _ _ _ h => h)).state _ ?_
      exact hf
    | fault e w2 =>
      rw [hr] at hf
      simp only [Outcome.exits, executor_level_add] at hf
      exact hf
    | abort m w2 => trivial
  · intro hc w2 w3 w4 h1 h2 hf hint2 hs hct hci ha
    rw [slr_ProcessUtility_eq, hcl]
    simp only [hc]
    rw [hf]
    simp only []
    have := slr_ProcessUtility_after_add E dest (executor_level_add (-1) w2) w3 w4 h1 h2
      (by rw [internal_call_level]; exact hint2) hs hct hci ha
    exact this

/-- `BEGIN` from the initial session with the quiet engine. -/
theorem begin_adds_savepoint_witness :
    slr_ProcessUtility Engine.quiet (.TransactionStmt .TRANS_STMT_BEGIN none) .DestRemote
        World.initial
      = .ok () { World.initial with
          slr_xact_opened := true,
          slr_pending := true,
          newresowner := some 101,
          host := { Host.running with xact := 1 },
          resetCallbacks := [(10, .slr_restore_resowner)],
          trace := [.forward .ProcessUtility, .slr_save_resowner,
            .CommitTransactionCommand, .CommandCounterIncrement,
            .slr_add_savepoint, .DefineSavepoint "PgSLRAutoSvpt",
            .CommitTransactionCommand, .CommandCounterIncrement,
            .MemoryContextRegisterResetCallback 10] } :=
  ((begin_adds_savepoint Engine.quiet .TRANS_STMT_BEGIN none .DestRemote World.initial
      (Or.inl rfl) rfl).2.2 rfl _ _ _ _ _ rfl rfl rfl rfl rfl rfl).1.trans (by decide)

/-- The utility hook when the classifier sets `release_add_savepoint` and the
forwarded call and the three manager functions return: save, release and add run
in this order after the forwarded call, then the deferred flag is cleared. -/
theorem slr_ProcessUtility_rotate (E : Engine) (parsetree : Node) (dest : CommandDest)
    (a : Bool) (w wc w2 w3 w4 w5 : World)
    (hcl : slr_ProcessUtility_classify parsetree dest w = .ok (true, a) wc)
    (hf : E.ProcessUtility parsetree dest
      { executor_level_add 1 wc with trace := wc.trace ++ [.forward .ProcessUtility] }
        = .ok () w2)
    (hint2 : internal_call dest w2 = false)
    (hs : slr_save_resowner E (executor_level_add (-1) w2) = .ok () w3)
    (hr : slr_release_savepoint E w3 = .ok () w4)
    (ha : slr_add_savepoint E w4 = .ok () w5) :
    slr_ProcessUtility E parsetree dest w
        = .ok () { w5 with slr_defered_save_resowner := false }
    ∧ managerCalls w5.trace
        = managerCalls w2.trace
          ++ [.slr_save_resowner, .slr_release_savepoint, .slr_add_savepoint] := by
  rw [slr_ProcessUtility_eq, hcl]
  simp only []
  rw [hf]
  simp only []
  exact slr_ProcessUtility_after_rotate E dest a (executor_level_add (-1) w2) w3 w4 w5
    (by rw [internal_call_level]; exact hint2) hs hr ha

/-- C9 (counterexample): `FETCH` and `CLOSE` are utility statements that are
neither transaction control nor a cursor declaration; processed on a remote
destination with the extension enabled at executor level 0 they are forwarded
and nothing else happens: no save, no release, no add. -/
theorem fetch_and_close_do_not_rotate :
    World.open_pending.slr_enabled = true
    ∧ World.open_pending.slr_nest_executor_level = 0
    ∧ slr_ProcessUtility Engine.quiet .FetchStmt .DestRemote World.open_pending
      = .ok () { World.open_pending with trace := [.forward .ProcessUtility] }
    ∧ slr_ProcessUtility Engine.quiet .ClosePortalStmt .DestRemote World.open_pending
      = .ok () { World.open_pending with trace := [.forward .ProcessUtility] } := by
  refine ⟨rfl, rfl, ?_, ?_⟩ <;> decide

/-- C9 (amended): for a utility statement whose node is none of
`TransactionStmt`, `FetchStmt`, `DeclareCursorStmt`, `PlannedStmt` and
`ClosePortalStmt`, processed in a regular backend on a destination other than SPI
with the extension enabled at executor level 0, the classifier sets
`release_add_savepoint`; when the forwarded call returns, the hook runs
`slr_save_resowner`, `slr_release_savepoint`, `slr_add_savepoint` in this order
(each on the state the one before left, provided it returns), and these are the
only manager calls it makes. -/
theorem other_utility_rotates (E : Engine) (tag : Nat) (dest : CommandDest) (w : World)
    (hint : internal_call dest w = false)
    (hen : w.slr_enabled = true) (hlv : w.slr_nest_executor_level = 0) :
    slr_ProcessUtility_classify (.other tag) dest w = .ok (true, false) w
    ∧ ∀ w2 w3 w4 w5 : World,
        E.ProcessUtility (.other tag) dest
          { executor_level_add 1 w with trace := w.trace ++ [.forward .ProcessUtility] }
            = .ok () w2 →
        internal_call dest w2 = false →
        slr_save_resowner E (executor_level_add (-1) w2) = .ok () w3 →
        slr_release_savepoint E w3 = .ok () w4 →
        slr_add_savepoint E w4 = .ok () w5 →
        slr_ProcessUtility E (.other tag) dest w
            = .ok () { w5 with slr_defered_save_resowner := false }
        ∧ managerCalls w5.trace
            = managerCalls w2.trace
              ++ [.slr_save_resowner, .slr_release_savepoint, .slr_add_savepoint] := by
  have hcl : slr_ProcessUtility_classify (.other tag) dest w = .ok (true, false) w := by
    simp [slr_ProcessUtility_classify, hint, hen, hlv]
  refine ⟨hcl, ?_⟩
  intro w2 w3 w4 w5 hf hint2 hs hr ha
  exact slr_ProcessUtility_rotate E (.other tag) dest false w w w2 w3 w4 w5 hcl hf hint2 hs hr ha

/-- A DDL statement in an open transaction with a savepoint pending. -/
theorem other_utility_rotates_witness :
    slr_ProcessUtility Engine.quiet (.other 0) .DestRemote World.open_pending
      = .ok () { World.open_pending with
          newresowner := some 101,
          host := { Host.running with xact := 1 },
          resetCallbacks := [(10, .slr_restore_resowner)],
          trace := [.forward .ProcessUtility, .slr_save_resowner,
            .slr_release_savepoint, .ReleaseSavepoint "PgSLRAutoSvpt",
            .CommitTransactionCommand, .CommandCounterIncrement,
            .slr_add_savepoint, .DefineSavepoint "PgSLRAutoSvpt",
            .CommitTransactionCommand, .CommandCounterIncrement,
            .MemoryContextRegisterResetCallback 10] } :=
  ((other_utility_rotates Engine.quiet 0 .DestRemote World.open_pending rfl rfl rfl).2
      _ _ _ _ rfl rfl rfl rfl rfl).1.trans (by decide)

/-- C10 (counterexample): a cursor declaration processed on a remote destination
with the extension enabled and a savepoint pending calls
`slr_release_savepoint`, which releases the pending savepoint, before it adds
the new one. -/
theorem declare_cursor_releases :
    World.open_pending.slr_pending = true
    ∧ (slr_ProcessUtility Engine.quiet .DeclareCursorStmt .DestRemote
        World.open_pending).state.trace
      = [.forward .ProcessUtility, .slr_save_resowner,
          .slr_release_savepoint, .ReleaseSavepoint "PgSLRAutoSvpt",
          .CommitTransactionCommand, .CommandCounterIncrement,
          .slr_add_savepoint, .DefineSavepoint "PgSLRAutoSvpt",
          .CommitTransactionCommand, .CommandCounterIncrement,
          .MemoryContextRegisterResetCallback 10] := by
  constructor <;> decide

/-- C10 (amended): for a cursor declaration processed in a regular backend on a
destination other than SPI with the extension enabled, the classifier sets
`release_add_savepoint` (at any executor level); when the forwarded call
returns, the hook runs `slr_save_resowner`, `slr_release_savepoint`,
`slr_add_savepoint` in this order (each on the state the one before left,
provided it returns). -/
theorem declare_cursor_rotates (E : Engine) (dest : CommandDest) (w : World)
    (hint : internal_call dest w = false) (hen : w.slr_enabled = true) :
    slr_ProcessUtility_classify .DeclareCursorStmt dest w = .ok (true, false) w
    ∧ ∀ w2 w3 w4 w5 : World,
        E.ProcessUtility .DeclareCursorStmt dest
          { executor_level_add 1 w with trace := w.trace ++ [.forward .ProcessUtility] }
            = .ok () w2 →
        internal_call dest w2 = false →
        slr_save_resowner E (executor_level_add (-1) w2) = .ok () w3 →
        slr_release_savepoint E w3 = .ok () w4 →
        slr_add_savepoint E w4 = .ok () w5 →
        slr_ProcessUtility E .DeclareCursorStmt dest w
            = .ok () { w5 with slr_defered_save_resowner := false }
        ∧ managerCalls w5.trace
            = managerCalls w2.trace
              ++ [.slr_save_resowner, .slr_release_savepoint, .slr_add_savepoint] := by
  have hcl : slr_ProcessUtility_classify .DeclareCursorStmt dest w = .ok (true, false) w := by
    simp [slr_ProcessUtility_classify, hint, hen]
  refine ⟨hcl, ?_⟩
  intro w2 w3 w4 w5 hf hint2 hs hr ha
  exact slr_ProcessUtility_rotate E .DeclareCursorStmt dest false w w w2 w3 w4 w5 hcl hf hint2
    hs hr ha

/-- `DECLARE CURSOR` in an open transaction with a savepoint pending. -/
theorem declare_cursor_rotates_witness :
    slr_ProcessUtility Engine.quiet .DeclareCursorStmt .DestRemote World.open_pending
      = .ok () { World.open_pending with
          newresowner := some 101,
          host := { Host.running with xact := 1 },
          resetCallbacks := [(10, .slr_restore_resowner)],
          trace := [.forward .ProcessUtility, .slr_save_resowner,
            .slr_release_savepoint, .ReleaseSavepoint "PgSLRAutoSvpt",
            .CommitTransactionCommand, .CommandCounterIncrement,
            .slr_add_savepoint, .DefineSavepoint "PgSLRAutoSvpt",
            .CommitTransactionCommand, .CommandCounterIncrement,
            .MemoryContextRegisterResetCallback 10] } :=
  ((declare_cursor_rotates Engine.quiet .DestRemote World.open_pending rfl rfl).2
      _ _ _ _ rfl rfl rfl rfl rfl).1.trans (by decide)

/-- If a sequence returns, its last step returned. -/
theorem bind_returns {α β : Type} {x : Exec α} {f : α → Exec β} {Q : World → Prop}
    (hf : ∀ a w b w1, f a w = .ok b w1 → Q w1) :
    ∀ w b w1, (x >>= f) w = .ok b w1 → Q w1 := by
  intro w b w1 h
  have h2 : Exec.bind x f w = .ok b w1 := h
  unfold Exec.bind at h2
  cases hx : x w with
  | ok a w2 => rw [hx] at h2; exact hf a w2 b w1 h2
  | fault e w2 => rw [hx] at h2; cases h2
  | abort m w2 => rw [hx] at h2; cases h2

/-- `slr_save_resowner` does not assign `slr_pending`. -/
theorem slr_save_resowner_pending (E : Engine) (p : Bool) :
    (slr_save_resowner E).preserves (fun s => s.slr_pending = p) := by
  unfold slr_save_resowner
  repeat' (first
    | exact preserves_pure _ _
    | exact preserves_getW _
    | exact preserves_Assert _ _ _ _
    | exact preserves_record (fun w hw => by simpa using hw)
    | exact preserves_modifyW (fun w hw => by simpa using hw)
    | apply preserves_bind
    | apply preserves_ite
    | intro _)

/-- `slr_add_savepoint` never clears `slr_pending`. -/
theorem slr_add_savepoint_pending (E : Engine) :
    (slr_add_savepoint E).preserves (fun s => s.slr_pending = true) := by
  unfold slr_add_savepoint
  repeat' (first
    | exact preserves_pure _ _
    | exact preserves_getW _
    | exact preserves_elog_ERROR _ _
    | exact preserves_Assert _ _ _ _
    | exact preserves_record (fun w hw => by simpa using hw)
    | exact preserves_callHost (fun w h hw => by simpa using hw)
    | exact preserves_modifyW (fun w hw => by simp_all)
    | apply preserves_bind
    | apply preserves_ite
    | intro _
    | split)

/-- With only `add_savepoint` set, the last part of the utility hook never
clears `slr_pending`, however it ends. -/
theorem slr_ProcessUtility_after_add_pending (E : Engine) (dest : CommandDest) :
    (slr_ProcessUtility_after E dest false true).preserves
      (fun s => s.slr_pending = true) := by
  unfold slr_ProcessUtility_after
  simp only [Bool.false_eq_true, if_false, if_true]
  repeat' (first
    | exact preserves_pure _ _
    | exact preserves_getW _
    | exact slr_save_resowner_pending E true
    | exact slr_add_savepoint_pending E
    | exact preserves_callHost (fun w h hw => by simpa using hw)
    | exact preserves_modifyW (fun w hw => by simpa using hw)
    | apply preserves_bind
    | apply preserves_ite
    | intro _)

/-- The classifier on `SAVEPOINT`, `RELEASE` and `ROLLBACK TO` (lines 328-371). -/
theorem classify_savepoint (n : String) (name : Option String) (dest : CommandDest)
    (w : World) (hint : internal_call dest w = false) :
    slr_ProcessUtility_classify (.TransactionStmt .TRANS_STMT_SAVEPOINT (some n)) dest w
      = .ok (false, w.slr_enabled && n != w.slr_savepoint_name) w
    ∧ slr_ProcessUtility_classify (.TransactionStmt .TRANS_STMT_RELEASE name) dest w
      = .ok (false, false) w
    ∧ slr_ProcessUtility_classify (.TransactionStmt .TRANS_STMT_ROLLBACK_TO name) dest w
      = .ok (false, false) w := by
  refine ⟨?_, ?_, ?_⟩ <;> simp [slr_ProcessUtility_classify, hint]

/-- C11: in a regular backend on a destination other than SPI, the classifier
leaves every global as it is for `SAVEPOINT n`, `RELEASE` and `ROLLBACK TO`; for
`SAVEPOINT n` it sets `add_savepoint` exactly when the extension is enabled and
`n` is not the configured savepoint name (so not for the reserved name), and
never `release_add_savepoint`; for `RELEASE` and `ROLLBACK TO` it sets neither.
When `add_savepoint` is set for `SAVEPOINT n` and the forwarded call returns,
the hook runs `slr_save_resowner`, the two finalizing calls and
`slr_add_savepoint` (each on the state the step before left, provided it
returns), with no `slr_release_savepoint`, and a `slr_pending` that the
forwarded call left true is true however the hook ends. -/
theorem user_savepoint_adds (E : Engine) (n : String) (name : Option String)
    (dest : CommandDest) (w : World) (hint : internal_call dest w = false) :
    slr_ProcessUtility_classify (.TransactionStmt .TRANS_STMT_SAVEPOINT (some n)) dest w
      = .ok (false, w.slr_enabled && n != w.slr_savepoint_name) w
    ∧ ((w.slr_enabled && n != w.slr_savepoint_name) = true ↔
        (w.slr_enabled = true ∧ n ≠ w.slr_savepoint_name))
    ∧ slr_ProcessUtility_classify (.TransactionStmt .TRANS_STMT_SAVEPOINT
          (some w.slr_savepoint_name)) dest w
      = .ok (false, false) w
    ∧ slr_ProcessUtility_classify (.TransactionStmt .TRANS_STMT_RELEASE name) dest w
      = .ok (false, false) w
    ∧ slr_ProcessUtility_classify (.TransactionStmt .TRANS_STMT_ROLLBACK_TO name) dest w
      = .ok (false, false) w
    ∧ (w.slr_enabled = true → n ≠ w.slr_savepoint_name →
        ∀ w2 : World,
          E.ProcessUtility (.TransactionStmt .TRANS_STMT_SAVEPOINT (some n)) dest
            { executor_level_add 1 w with trace := w.trace ++ [.forward .ProcessUtility] }
              = .ok () w2 →
          internal_call dest w2 = false →
          (w2.slr_pending = true →
            (slr_ProcessUtility E (.TransactionStmt .TRANS_STMT_SAVEPOINT (some n)) dest
              w).state.slr_pending = true)
          ∧ ∀ (w3 w4 : World) (h1 h2 : Host),
            slr_save_resowner E (executor_level_add (-1) w2) = .ok () w3 →
            E.CommitTransactionCommand w3.host = .ok () h1 →
            E.CommandCounterIncrement h1 = .ok () h2 →
            slr_add_savepoint E
              { w3 with
                trace := w3.trace ++ [.CommitTransactionCommand]
                  ++ [.CommandCounterIncrement],
                host := h2 } = .ok () w4 →
            slr_ProcessUtility E (.TransactionStmt .TRANS_STMT_SAVEPOINT (some n)) dest w
                = .ok () { w4 with slr_defered_save_resowner := false }
            ∧ managerCalls w4.trace
                = managerCalls w2.trace ++ [.slr_save_resowner, .slr_add_savepoint]) := by
  obtain ⟨hs, hr, hb⟩ := classify_savepoint n name dest w hint
  refine ⟨hs, ?_, ?_, hr, hb, ?_⟩
  · simp
  · have := (classify_savepoint w.slr_savepoint_name name dest w hint).1
    simpa using this
  · intro hen hn w2 hf hint2
    have hi : (w.slr_enabled && n != w.slr_savepoint_name) = true := by simp [hen, hn]
    have heq : slr_ProcessUtility E (.TransactionStmt .TRANS_STMT_SAVEPOINT (some n)) dest w
        = slr_ProcessUtility_after E dest false true (executor_level_add (-1) w2) := by
      rw [slr_ProcessUtility_eq, hs]
      simp only [hi]
      rw [hf]
    constructor
    · intro hp
      rw [heq]
      exact (slr_ProcessUtility_after_add_pending E dest).state _ hp
    · intro w3 w4 h1 h2 hsv hc hci ha
      rw [heq]
      exact slr_ProcessUtility_after_add E dest (executor_level_add (-1) w2) w3 w4 h1 h2
        (by rw [internal_call_level]; exact hint2) hsv hc hci ha

/-- `SAVEPOINT user_a` in an open transaction with a savepoint pending. -/
theorem user_savepoint_adds_witness :
    slr_ProcessUtility Engine.quiet (.TransactionStmt .TRANS_STMT_SAVEPOINT (some "user_a"))
        .DestRemote World.open_pending
      = .ok () { World.open_pending with
          newresowner := some 101,
          host := { Host.running with xact := 1 },
          resetCallbacks := [(10, .slr_restore_resowner)],
          trace := [.forward .ProcessUtility, .slr_save_resowner,
            .CommitTransactionCommand, .CommandCounterIncrement,
            .slr_add_savepoint, .DefineSavepoint "PgSLRAutoSvpt",
            .CommitTransactionCommand, .CommandCounterIncrement,
            .MemoryContextRegisterResetCallback 10] } :=
  ((((user_savepoint_adds Engine.quiet "user_a" none .DestRemote World.open_pending
      rfl).2.2.2.2.2 rfl (by decide) _ rfl rfl).2 _ _ _ _ rfl rfl rfl rfl).1).trans
    (by decide)

/-- Before version 16, `slr_is_write_query` never raises and returns true exactly
when some entry of the range table is a real table whose `requiredPerms` hold a
bit other than `ACL_SELECT`; other entries are skipped. -/
theorem slr_is_write_query_before_16 (v : Nat) (hv : v < 160000) (q : QueryDesc) :
    slr_is_write_query v q = .ok (writes_a_table 32 q.rtable) := by
  unfold slr_is_write_query
  generalize q.es_rteperminfos = infos
  induction q.rtable with
  | nil => rfl
  | cons rte rest ih =>
    unfold slr_is_write_query_loop
    by_cases hk : rte.rtekind = .RTE_RELATION
    · by_cases hp : without_ACL_SELECT 32 rte.requiredPerms = 0
      · simp [hk, hv, hp, ih, writes_a_table]
      · simp [hk, hv, hp, writes_a_table]
    · simp [hk, ih, writes_a_table]

/-- C12 (code bug): from version 16 on, a range table whose only entry is a real
table with `perminfoindex = 0` (no permission required at all) makes
`slr_is_write_query` return true, although no entry requires a permission other
than read; before version 16 the same range table gives false. -/
theorem slr_is_write_query_unchecked_child :
    slr_is_write_query 160000 QueryDesc.unchecked_child = .ok true
    ∧ writes_a_table 64 QueryDesc.unchecked_child.rtable = false
    ∧ slr_is_write_query 150000 QueryDesc.unchecked_child = .ok false := by
  exact ⟨rfl, rfl, rfl⟩

/-- What keeps the globals of `Kept` keeps `slr_defered_save_resowner`. -/
theorem defered_of_kept {α : Type} {x : Exec α} (b : Bool)
    (hx : ∀ k, x.preserves (fun s => s.kept = k)) :
    x.preserves (fun s => s.slr_defered_save_resowner = b) := by
  constructor
  intro w hw
  have := (hx w.kept).state w rfl
  have h2 := congrArg Kept.slr_defered_save_resowner this
  simp only [World.kept] at h2
  rw [h2]; exact hw

/-- C13: the start hook forwards first.  Let `w1` be the state in which the
forwarded call returns, in a regular backend with the extension enabled, and let
`slr_is_write_query` report `b` for the plan.  If the executor level is 0 and
planning is complete, the hook is exactly one call of `slr_save_resowner` on
`w1`: that is its only manager call and the deferred flag keeps its value.
Otherwise it returns without any manager call, and the only global that can
differ from `w1` is the deferred flag, which is set when the executor level is
positive, planning is complete, write-only mode is on and `b` is true, and
keeps its value when not. -/
theorem slr_ExecutorStart_effect (E : Engine) (q : QueryDesc) (w w1 : World) (b : Bool)
    (hf : E.ExecutorStart q { w with trace := w.trace ++ [.forward .ExecutorStart] }
      = .ok () w1)
    (hpar : IN_PARALLEL_WORKER w1 = false) (hen : w1.slr_enabled = true)
    (hq : slr_is_write_query E.PG_VERSION_NUM q = .ok b) :
    ((w1.slr_nest_executor_level = 0 ∧ w1.slr_planner_done = true) →
      slr_ExecutorStart E q w = slr_save_resowner E w1
      ∧ managerCalls (slr_ExecutorStart E q w).state.trace
          = managerCalls w1.trace ++ [.slr_save_resowner]
      ∧ (slr_ExecutorStart E q w).state.slr_defered_save_resowner
          = w1.slr_defered_save_resowner)
    ∧ (¬(w1.slr_nest_executor_level = 0 ∧ w1.slr_planner_done = true) →
      slr_ExecutorStart E q w
        = .ok ()
          (if 0 < w1.slr_nest_executor_level ∧ w1.slr_planner_done = true
              ∧ w1.slr_enable_writeonly = true ∧ b = true then
            { w1 with slr_defered_save_resowner := true }
          else w1)) := by
  constructor
  · rintro ⟨hl, hd⟩
    have heq : slr_ExecutorStart E q w = slr_save_resowner E w1 := by
      simp only [slr_ExecutorStart, bind, Exec.bind, forwardTo, hf, getW, hpar, hen, hl, hd,
        Bool.false_eq_true, if_false]
      cases hs : slr_save_resowner E w1 with
      | ok u w2 =>
        have hk := (slr_save_resowner_kept E w1.kept).state w1 rfl
        rw [hs] at hk
        have hl2 := congrArg Kept.slr_nest_executor_level hk
        simp only [Outcome.state, World.kept] at hl2
        simp [Exec.bind, hs, hl2, hl, getW, pure, Exec.pure]
      | fault e w2 => simp [Exec.bind, hs]
      | abort m w2 => simp [Exec.bind, hs]
    refine ⟨heq, ?_, ?_⟩
    · rw [heq]; exact slr_save_resowner_calls E w1
    · rw [heq]
      exact (defered_of_kept _ (slr_save_resowner_kept E)).state w1 rfl
  · intro hn
    rcases lt_trichotomy w1.slr_nest_executor_level 0 with hl | hl | hl
    · have h1 : w1.slr_nest_executor_level ≠ 0 := by omega
      have h2 : ¬ 0 < w1.slr_nest_executor_level := by omega
      simp [slr_ExecutorStart, bind, Exec.bind, forwardTo, hf, getW, hpar, pure, Exec.pure,
        hen, h1, h2]
    · have hd : w1.slr_planner_done = false := by
        cases hd : w1.slr_planner_done
        · rfl
        · exact absurd ⟨hl, hd⟩ hn
      simp [slr_ExecutorStart, bind, Exec.bind, forwardTo, hf, getW, hpar, pure, Exec.pure,
        hen, hl, hd]
    · have h1 : w1.slr_nest_executor_level ≠ 0 := by omega
      cases hd : w1.slr_planner_done <;> cases hw : w1.slr_enable_writeonly <;> cases b
        <;> simp [slr_ExecutorStart, bind, Exec.bind, forwardTo, hf, getW, hpar, pure,
          Exec.pure, hen, hq, liftExcept, modifyW, h1, hl, hd, hw]

/-- A nested write sets the deferred flag; a top-level start saves. -/
theorem slr_ExecutorStart_effect_witness :
    slr_ExecutorStart Engine.quiet QueryDesc.insert World.nested
        = .ok () { World.nested with
            slr_defered_save_resowner := true, trace := [.forward .ExecutorStart] }
    ∧ slr_ExecutorStart Engine.quiet QueryDesc.insert World.open_pending
        = slr_save_resowner Engine.quiet
            { World.open_pending with trace := [.forward .ExecutorStart] } :=
  ⟨((slr_ExecutorStart_effect Engine.quiet QueryDesc.insert World.nested _ true rfl rfl rfl
      rfl).2 (by decide)).trans (by decide),
    ((slr_ExecutorStart_effect Engine.quiet QueryDesc.insert World.open_pending _ true rfl
      rfl rfl rfl).1 (by decide)).1⟩

theorem getW_bind {α : Type} (f : World → Exec α) (w : World) :
    (getW >>= f) w = f w w := rfl

/-- When the last part of the utility hook returns on a call that is not
internal, the deferred flag is false. -/
theorem slr_ProcessUtility_after_clears (E : Engine) (dest : CommandDest) (ra a : Bool)
    (w w1 : World) (hint : internal_call dest w = false)
    (h : slr_ProcessUtility_after E dest ra a w = .ok () w1) :
    w1.slr_defered_save_resowner = false := by
  have last : ∀ (u : PUnit) (s : World) (b : Unit) (s1 : World),
      (modifyW fun w => { w with slr_defered_save_resowner := false }) s = .ok b s1 →
      s1.slr_defered_save_resowner = false := by
    intro u s b s1 hm
    simp only [modifyW] at hm
    cases hm
    rfl
  unfold slr_ProcessUtility_after at h
  rw [getW_bind] at h
  simp only [hint, Bool.false_eq_true, if_false] at h
  cases ra <;> cases a <;> cases hd : w.slr_defered_save_resowner
    <;> simp only [hd, Bool.false_eq_true, if_false, if_true] at h
  all_goals
    first
    | exact bind_returns (fun _ => last ()) w () w1 h
    | exact bind_returns
        (fun _ => bind_returns (fun _ => bind_returns (fun _ => last ()))) w () w1 h
    | exact bind_returns
        (fun _ => bind_returns (fun _ => bind_returns (fun _ =>
          bind_returns (fun _ => last ())))) w () w1 h

/-- The last part of the utility hook when no intent was computed and the
deferred flag is set: the owed rotation runs, save, release, add in this order,
and then the flag is cleared. -/
theorem slr_ProcessUtility_after_deferred (E : Engine) (dest : CommandDest)
    (w w1 w2 w3 : World) (hint : internal_call dest w = false)
    (hd : w.slr_defered_save_resowner = true)
    (hs : slr_save_resowner E w = .ok () w1)
    (hr : slr_release_savepoint E w1 = .ok () w2)
    (ha : slr_add_savepoint E w2 = .ok () w3) :
    slr_ProcessUtility_after E dest false false w
        = .ok () { w3 with slr_defered_save_resowner := false }
    ∧ managerCalls w3.trace
        = managerCalls w.trace
          ++ [.slr_save_resowner, .slr_release_savepoint, .slr_add_savepoint] := by
  constructor
  · simp only [slr_ProcessUtility_after, bind, Exec.bind, getW, hint, hd, hs, hr, ha, modifyW,
      if_true, Bool.false_eq_true, if_false]
  · have c1 := slr_save_resowner_calls E w
    have c2 := slr_release_savepoint_calls E w1
    have c3 := slr_add_savepoint_calls E w2
    rw [hs] at c1
    rw [hr] at c2
    rw [ha] at c3
    simp only [Outcome.state] at c1 c2 c3
    rw [c3, c2, c1]
    simp only [List.append_assoc, List.singleton_append, List.cons_append, List.nil_append]

/-- C14 (counterexample): on an SPI destination the utility hook returns with
the deferred flag still set, and runs no rotation. -/
theorem deferred_flag_survives_spi :
    World.owing.slr_defered_save_resowner = true
    ∧ slr_ProcessUtility Engine.quiet (.other 0) .DestSPI World.owing
      = .ok () { World.owing with trace := [.forward .ProcessUtility] } := by
  constructor <;> decide

/-- C14 (amended): for every utility statement and every state, when the
forwarded call returns in a regular backend, the destination is not SPI and the
utility hook returns, the deferred flag is false; and when the classifier
computed no intent and the forwarded call left the flag set, the hook runs
`slr_save_resowner`, `slr_release_savepoint`, `slr_add_savepoint` in this order
(each on the state the one before left, provided it returns) and then clears
the flag. -/
theorem utility_clears_deferred_flag (E : Engine) (parsetree : Node) (dest : CommandDest)
    (w wc w2 : World) (intent : Bool × Bool)
    (hcl : slr_ProcessUtility_classify parsetree dest w = .ok intent wc)
    (hf : E.ProcessUtility parsetree dest
      { executor_level_add 1 wc with trace := wc.trace ++ [.forward .ProcessUtility] }
        = .ok () w2)
    (hint2 : internal_call dest w2 = false) :
    (∀ w3, slr_ProcessUtility E parsetree dest w = .ok () w3 →
      w3.slr_defered_save_resowner = false)
    ∧ (intent = (false, false) → w2.slr_defered_save_resowner = true →
      ∀ w3 w4 w5 : World,
        slr_save_resowner E (executor_level_add (-1) w2) = .ok () w3 →
        slr_release_savepoint E w3 = .ok () w4 →
        slr_add_savepoint E w4 = .ok () w5 →
        slr_ProcessUtility E parsetree dest w
            = .ok () { w5 with slr_defered_save_resowner := false }
        ∧ managerCalls w5.trace
            = managerCalls w2.trace
              ++ [.slr_save_resowner, .slr_release_savepoint, .slr_add_savepoint]) := by
  have heq : slr_ProcessUtility E parsetree dest w
      = slr_ProcessUtility_after E dest intent.1 intent.2 (executor_level_add (-1) w2) := by
    rw [slr_ProcessUtility_eq, hcl]
    simp only []
    rw [hf]
  have hint3 : internal_call dest (executor_level_add (-1) w2) = false := by
    rw [internal_call_level]; exact hint2
  constructor
  · intro w3 h
    rw [heq] at h
    exact slr_ProcessUtility_after_clears E dest _ _ _ w3 hint3 h
  · intro hi hd w3 w4 w5 hs hr ha
    rw [heq, hi]
    exact slr_ProcessUtility_after_deferred E dest (executor_level_add (-1) w2) w3 w4 w5
      hint3 hd hs hr ha

/-- `FETCH` on a remote destination with a rotation owed. -/
theorem utility_clears_deferred_flag_witness :
    slr_ProcessUtility Engine.quiet .FetchStmt .DestRemote World.owing
      = .ok () { World.open_pending with
          newresowner := some 101,
          host := { Host.running with xact := 1 },
          resetCallbacks := [(10, .slr_restore_resowner)],
          trace := [.forward .ProcessUtility, .slr_save_resowner,
            .slr_release_savepoint, .ReleaseSavepoint "PgSLRAutoSvpt",
            .CommitTransactionCommand, .CommandCounterIncrement,
            .slr_add_savepoint, .DefineSavepoint "PgSLRAutoSvpt",
            .CommitTransactionCommand, .CommandCounterIncrement,
            .MemoryContextRegisterResetCallback 10] } :=
  (((utility_clears_deferred_flag Engine.quiet .FetchStmt .DestRemote World.owing
      World.owing _ (false, false) rfl rfl rfl).2 rfl rfl _ _ _ rfl rfl rfl).1).trans
    (by decide)

/-- C15: `disable_differed_slr` on a diagnostic `e`: when `e.elevel` is at or
above `ERROR` the deferred flag is cleared, otherwise no global changes at all;
no other global of the session changes in either case; then the previous
subscriber, if there is one, is called once, on `e` itself, and what it does is
the outcome; without one the function returns. -/
theorem disable_differed_slr_effect (ERROR : Int)
    (prev_log_hook : Option (ErrorData → World → Outcome World Unit))
    (e : ErrorData) (w : World) :
    (e.elevel ≥ ERROR →
      disable_differed_slr ERROR prev_log_hook e w
        = match prev_log_hook with
          | some hook => hook e { w with slr_defered_save_resowner := false }
          | none => .ok () { w with slr_defered_save_resowner := false })
    ∧ (e.elevel < ERROR →
      disable_differed_slr ERROR prev_log_hook e w
        = match prev_log_hook with
          | some hook => hook e w
          | none => .ok () w) := by
  constructor
  · intro h
    cases prev_log_hook <;>
      simp [disable_differed_slr, bind, Exec.bind, modifyW, pure, Exec.pure, h]
  · intro h
    have h2 : ¬ e.elevel ≥ ERROR := by omega
    cases prev_log_hook <;>
      simp [disable_differed_slr, bind, Exec.bind, modifyW, pure, Exec.pure, h2]

/-- An error clears a set flag and reaches the previous subscriber; a warning
leaves the flag set. -/
theorem disable_differed_slr_effect_witness :
    disable_differed_slr 21 (some log_message) { elevel := 21, message := "failed" }
        World.owing
      = .ok () { World.open_pending with serverLog := ["failed"] }
    ∧ disable_differed_slr 21 none { elevel := 19, message := "careful" } World.owing
      = .ok () World.owing :=
  ⟨((disable_differed_slr_effect 21 (some log_message) { elevel := 21, message := "failed" }
      World.owing).1 (by decide)).trans (by decide),
    (disable_differed_slr_effect 21 none { elevel := 19, message := "careful" }
      World.owing).2 (by decide)⟩

/-- C16 (code bug): `oldresowner` is emptied by `slr_add_savepoint` alone, and
every top-level `slr_ExecutorStart` in an open transaction saves.  After `BEGIN`
and one read-only statement in write-only mode (whose end hook does not rotate)
`oldresowner` is still set, so the start hook of the next statement calls
`slr_save_resowner` with `oldresowner` set and `Assert(oldresowner == NULL)`
fails.  The same happens to the statement that follows one whose forwarded run
raised. -/
theorem slr_save_resowner_finds_oldresowner_set :
    ((do
        utility_statement Engine.quiet (.TransactionStmt .TRANS_STMT_BEGIN none)
        planned_statement Engine.quiet 0 QueryDesc.select : Exec Unit)
      World.initial).state.oldresowner = some 101
    ∧ ((do
        utility_statement Engine.quiet (.TransactionStmt .TRANS_STMT_BEGIN none)
        planned_statement Engine.quiet 0 QueryDesc.select
        planned_statement Engine.quiet 0 QueryDesc.select : Exec Unit)
      World.initial).abort_text = some "oldresowner == NULL"
    ∧ (((do
        utility_statement Engine.quiet (.TransactionStmt .TRANS_STMT_BEGIN none)
        planned_statement Engine.quiet 0 QueryDesc.select
        planned_statement Engine.quiet 0 QueryDesc.select : Exec Unit)
      World.initial).state.trace.reverse.take 2)
        = [.slr_save_resowner, .forward .ExecutorStart]
    ∧ (match planned_statement Engine.run_raises 0 QueryDesc.insert World.open_pending with
      | .fault _ s => (planned_statement Engine.quiet 0 QueryDesc.insert s).abort_text
      | _ => none) = some "oldresowner == NULL" := by
  refine ⟨?_, ?_, ?_, ?_⟩ <;> decide!

/-- C17 (code bug): entered at executor level 1 on a destination other than SPI,
the utility hook calls `slr_save_resowner` at level 1 for a cursor declaration
(the arm of lines 381-387 has no level test) and, when the deferred flag is set,
for any statement without intent (the branch of lines 484-500 has none either);
`Assert(slr_nest_executor_level == 0)` fails in `slr_save_resowner`. -/
theorem utility_hook_saves_at_level_one :
    World.autocommit_nested.slr_nest_executor_level = 1
    ∧ (slr_ProcessUtility Engine.quiet .DeclareCursorStmt .DestNone
        World.autocommit_nested).abort_text = some "slr_nest_executor_level == 0"
    ∧ (slr_ProcessUtility Engine.quiet .DeclareCursorStmt .DestNone
        World.autocommit_nested).state.trace
      = [.forward .ProcessUtility, .slr_save_resowner]
    ∧ (slr_ProcessUtility Engine.quiet .DeclareCursorStmt .DestNone
        World.autocommit_nested).state.slr_nest_executor_level = 1
    ∧ (slr_ProcessUtility Engine.quiet (.other 0) .DestNone
        { World.autocommit_nested with slr_defered_save_resowner := true }).abort_text
      = some "slr_nest_executor_level == 0"
    ∧ (slr_ProcessUtility Engine.quiet (.other 0) .DestNone
        { World.autocommit_nested with slr_defered_save_resowner := true }).state.trace
      = [.forward .ProcessUtility, .slr_save_resowner]
    ∧ (slr_ProcessUtility { Engine.quiet with USE_ASSERT_CHECKING := false }
        .DeclareCursorStmt .DestNone
        { World.autocommit_nested with slr_xact_opened := true, slr_pending := true
        }).state.trace
      = [.forward .ProcessUtility, .slr_save_resowner,
          .slr_release_savepoint, .ReleaseSavepoint "PgSLRAutoSvpt",
          .CommitTransactionCommand, .CommandCounterIncrement,
          .slr_add_savepoint, .DefineSavepoint "PgSLRAutoSvpt",
          .CommitTransactionCommand, .CommandCounterIncrement,
          .MemoryContextRegisterResetCallback 10] := by
  refine ⟨rfl, ?_, ?_, ?_, ?_, ?_, ?_⟩ <;> decide!

/-- The last part of the utility hook with no intent and the deferred flag clear:
nothing is called. -/
theorem slr_ProcessUtility_after_nothing (E : Engine) (dest : CommandDest) (w : World)
    (hint : internal_call dest w = false) (hd : w.slr_defered_save_resowner = false) :
    slr_ProcessUtility_after E dest false false w
      = .ok () { w with slr_defered_save_resowner := false } := by
  simp [slr_ProcessUtility_after, bind, Exec.bind, getW, hint, hd, modifyW, pure, Exec.pure]

/-- C18: `PREPARE TRANSACTION` sent by the client (destination not SPI, regular
backend), with the deferred flag clear, at any executor level: when the
forwarded call returns leaving the extension's globals of `Kept` and the
parallel-worker number as they were, the utility hook returns (no error, no
failed assertion) in the state the forwarded call left, with the executor level
back at its entry value, `slr_xact_opened` false and the flag false; the trace is
the forwarded call's, so the hook calls no manager function and neither
`DefineSavepoint` nor `ReleaseSavepoint`. -/
theorem prepare_transaction_closes (E : Engine) (name : Option String)
    (dest : CommandDest) (w w2 : World)
    (hint : internal_call dest w = false)
    (hflag : w.slr_defered_save_resowner = false)
    (hf : E.ProcessUtility (.TransactionStmt .TRANS_STMT_PREPARE name) dest
      { executor_level_add 1 { w with slr_xact_opened := false } with
        trace := w.trace ++ [.forward .ProcessUtility] } = .ok () w2)
    (hk : w2.kept = (executor_level_add 1 { w with slr_xact_opened := false }).kept)
    (hp : w2.host.ParallelWorkerNumber = w.host.ParallelWorkerNumber) :
    slr_ProcessUtility E (.TransactionStmt .TRANS_STMT_PREPARE name) dest w
      = .ok () { w2 with
          slr_nest_executor_level := w.slr_nest_executor_level,
          slr_defered_save_resowner := false }
    ∧ w2.slr_xact_opened = false := by
  have hint2 : internal_call dest w2 = false := by
    simp only [internal_call, IN_PARALLEL_WORKER, hp] at hint ⊢
    exact hint
  have hl : w2.slr_nest_executor_level = w.slr_nest_executor_level + 1 := by
    have := congrArg Kept.slr_nest_executor_level hk
    simpa [World.kept, executor_level_add] using this
  have hd : w2.slr_defered_save_resowner = false := by
    have := congrArg Kept.slr_defered_save_resowner hk
    simpa [World.kept, executor_level_add, hflag] using this
  have ho : w2.slr_xact_opened = false := by
    have := congrArg Kept.slr_xact_opened hk
    simpa [World.kept, executor_level_add] using this
  refine ⟨?_, ho⟩
  rw [slr_ProcessUtility_eq, classify_prepare name dest w hint]
  simp only []
  rw [hf]
  simp only []
  rw [slr_ProcessUtility_after_nothing E dest (executor_level_add (-1) w2)
    (by rw [internal_call_level]; exact hint2) hd]
  have hl2 : w2.slr_nest_executor_level + -1 = w.slr_nest_executor_level := by omega
  simp only [executor_level_add, hl2]

/-- `PREPARE TRANSACTION` in an open transaction with a savepoint pending. -/
theorem prepare_transaction_closes_witness :
    slr_ProcessUtility Engine.quiet (.TransactionStmt .TRANS_STMT_PREPARE (some "x"))
        .DestRemote World.open_pending
      = .ok () { World.open_pending with
          slr_xact_opened := false, trace := [.forward .ProcessUtility] } :=
  ((prepare_transaction_closes Engine.quiet (some "x") .DestRemote World.open_pending _
      rfl rfl rfl rfl rfl).1).trans (by decide!)

/-- C19: from the initial session (closed, level 0, enabled, write-only mode on),
`BEGIN` ends with one `DefineSavepoint` of the configured name and no release;
the `INSERT` adds, inside its end hook (after the forwarded finish, before the
forwarded end), one `ReleaseSavepoint` followed by one `DefineSavepoint`; the
statement whose forwarded run raises adds its planner, start and run calls and
one save, but no release and no define, and raises with both nesting levels at
0 and `slr_pending` true. -/
theorem scenario_begin_insert_fault_trace :
    World.initial.slr_xact_opened = false
    ∧ World.initial.slr_nest_executor_level = 0
    ∧ World.initial.slr_enabled = true
    ∧ World.initial.slr_enable_writeonly = true
    ∧ (scenario_begin World.initial).state.trace
      = [.forward .ProcessUtility, .slr_save_resowner,
          .CommitTransactionCommand, .CommandCounterIncrement,
          .slr_add_savepoint, .DefineSavepoint "PgSLRAutoSvpt",
          .CommitTransactionCommand, .CommandCounterIncrement,
          .MemoryContextRegisterResetCallback 10, .slr_restore_resowner]
    ∧ (scenario_begin_insert World.initial).state.trace
      = (scenario_begin World.initial).state.trace
        ++ [.forward .planner, .forward .ExecutorStart, .slr_save_resowner,
          .forward .ExecutorRun, .forward .ExecutorFinish,
          .slr_release_savepoint, .ReleaseSavepoint "PgSLRAutoSvpt",
          .CommitTransactionCommand, .CommandCounterIncrement,
          .slr_add_savepoint, .DefineSavepoint "PgSLRAutoSvpt",
          .CommitTransactionCommand, .CommandCounterIncrement,
          .MemoryContextRegisterResetCallback 10,
          .forward .ExecutorEnd, .slr_restore_resowner]
    ∧ (scenario_begin_insert_fault World.initial).state.trace
      = (scenario_begin_insert World.initial).state.trace
        ++ [.forward .planner, .forward .ExecutorStart, .slr_save_resowner,
          .forward .ExecutorRun]
    ∧ savepoint_calls (scenario_begin_insert_fault World.initial).state.trace
      = [.DefineSavepoint "PgSLRAutoSvpt", .ReleaseSavepoint "PgSLRAutoSvpt",
          .DefineSavepoint "PgSLRAutoSvpt"]
    ∧ (scenario_begin_insert_fault World.initial).raised = some (.engine_error 0)
    ∧ (scenario_begin_insert_fault World.initial).state.slr_nest_executor_level = 0
    ∧ (scenario_begin_insert_fault World.initial).state.slr_nest_planner_level = 0
    ∧ (scenario_begin_insert_fault World.initial).state.slr_pending = true := by
  refine ⟨rfl, rfl, rfl, rfl, ?_, ?_, ?_, ?_, ?_, ?_, ?_, ?_⟩ <;> decide!

/-- C20: in an open transaction with a savepoint pending, enabled, write-only
mode on, a read-only top-level statement whose run plans and executes one nested
write: the nested start hook is entered with the deferred flag clear and leaves
it set; the whole hook sequence returns; its only savepoint calls are one
`ReleaseSavepoint` followed by one `DefineSavepoint`, made in the top-level end
hook (after the forwarded top-level finish, before the forwarded top-level end);
and the deferred flag is false at the end. -/
theorem scenario_nested_write_trace :
    World.open_pending.slr_xact_opened = true
    ∧ World.open_pending.slr_pending = true
    ∧ World.open_pending.slr_enabled = true
    ∧ World.open_pending.slr_enable_writeonly = true
    ∧ slr_is_write_query Engine.quiet.PG_VERSION_NUM QueryDesc.select = .ok false
    ∧ slr_is_write_query Engine.quiet.PG_VERSION_NUM QueryDesc.insert = .ok true
    ∧ World.before_nested_start.trace
      = [.forward .planner, .forward .ExecutorStart, .slr_save_resowner,
          .forward .ExecutorRun, .forward .planner]
    ∧ World.before_nested_start.slr_defered_save_resowner = false
    ∧ (slr_ExecutorStart Engine.quiet QueryDesc.insert
        World.before_nested_start).state.slr_defered_save_resowner = true
    ∧ (planned_statement_hooks Engine.calls_writer 0 QueryDesc.select
        World.open_pending).state.trace
      = [.forward .planner, .forward .ExecutorStart, .slr_save_resowner,
          .forward .ExecutorRun,
          .forward .planner, .forward .ExecutorStart, .forward .ExecutorRun,
          .forward .ExecutorFinish, .forward .ExecutorEnd,
          .forward .ExecutorFinish,
          .slr_release_savepoint, .ReleaseSavepoint "PgSLRAutoSvpt",
          .CommitTransactionCommand, .CommandCounterIncrement,
          .slr_add_savepoint, .DefineSavepoint "PgSLRAutoSvpt",
          .CommitTransactionCommand, .CommandCounterIncrement,
          .MemoryContextRegisterResetCallback 10,
          .forward .ExecutorEnd]
    ∧ savepoint_calls (planned_statement_hooks Engine.calls_writer 0 QueryDesc.select
        World.open_pending).state.trace
      = [.ReleaseSavepoint "PgSLRAutoSvpt", .DefineSavepoint "PgSLRAutoSvpt"]
    ∧ (planned_statement_hooks Engine.calls_writer 0 QueryDesc.select
        World.open_pending).state.slr_defered_save_resowner = false
    ∧ (planned_statement_hooks Engine.calls_writer 0 QueryDesc.select
        World.open_pending).raised = none
    ∧ (planned_statement_hooks Engine.calls_writer 0 QueryDesc.select
        World.open_pending).abort_text = none := by
  refine ⟨rfl, rfl, rfl, rfl, rfl, rfl, ?_, ?_, ?_, ?_, ?_, ?_, ?_, ?_⟩ <;> decide!

/-- C21: with the extension disabled or the transaction not open, at executor
level 0, each of `slr_save_resowner` (entered with `oldresowner` empty),
`slr_add_savepoint`, `slr_release_savepoint` and `slr_restore_resowner` returns
in the entry state with only its own call added to the trace: no engine call,
`CurrentResourceOwner` and every global of the session as before. -/
theorem manager_does_nothing_when_closed (E : Engine) (w : World)
    (h : w.slr_enabled = false ∨ w.slr_xact_opened = false)
    (hlv : w.slr_nest_executor_level = 0) :
    (w.oldresowner = none →
      slr_save_resowner E w = .ok () { w with trace := w.trace ++ [.slr_save_resowner] })
    ∧ slr_add_savepoint E w = .ok () { w with trace := w.trace ++ [.slr_add_savepoint] }
    ∧ slr_release_savepoint E w
      = .ok () { w with trace := w.trace ++ [.slr_release_savepoint] }
    ∧ slr_restore_resowner E w
      = .ok () { w with trace := w.trace ++ [.slr_restore_resowner] } := by
  have hc : (w.slr_enabled && w.slr_xact_opened) = false := by
    rcases h with h | h <;> simp [h]
  refine ⟨?_, ?_, ?_, ?_⟩
  · intro hold
    rw [slr_save_resowner_eq E w hlv hold, hc]
    rfl
  · simp [slr_add_savepoint, bind, Exec.bind, record, modifyW, Assert, getW, pure, Exec.pure,
      hlv, hc]
  · simp [slr_release_savepoint, bind, Exec.bind, record, modifyW, Assert, getW, pure,
      Exec.pure, hlv, hc]
  · rw [slr_restore_resowner_eq E w hlv, hc]
    rfl

/-- The four manager functions outside a transaction block. -/
theorem manager_does_nothing_when_closed_witness :
    slr_save_resowner Engine.quiet World.closed_with_new
      = .ok () { World.closed_with_new with trace := [.slr_save_resowner] }
    ∧ slr_add_savepoint Engine.quiet World.closed_with_new
      = .ok () { World.closed_with_new with trace := [.slr_add_savepoint] }
    ∧ slr_release_savepoint Engine.quiet World.closed_with_new
      = .ok () { World.closed_with_new with trace := [.slr_release_savepoint] }
    ∧ slr_restore_resowner Engine.quiet World.closed_with_new
      = .ok () { World.closed_with_new with trace := [.slr_restore_resowner] } :=
  have h := manager_does_nothing_when_closed Engine.quiet World.closed_with_new
    (Or.inr rfl) rfl
  ⟨h.1 rfl, h.2.1, h.2.2.1, h.2.2.2⟩

/-- The planner hook, evaluated around its forwarded call. -/
theorem slr_planner_eq (E : Engine) (parse : Query) (w : World) :
    slr_planner E parse w
    = match E.planner parse
        { w with
          slr_planner_done :=
            if w.slr_nest_executor_level == 0 && w.slr_nest_planner_level == 0 then false
            else w.slr_planner_done,
          slr_nest_planner_level := w.slr_nest_planner_level + 1,
          trace := w.trace ++ [.forward .planner] } with
      | .ok stmt w1 =>
        .ok stmt { w1 with
          slr_nest_planner_level := w1.slr_nest_planner_level + -1,
          slr_planner_done :=
            if w1.slr_nest_executor_level == 0 && w1.slr_nest_planner_level + -1 == 0 then true
            else w1.slr_planner_done }
      | .fault e w1 => .fault e w1
      | .abort m w1 => .abort m w1 := by
  have hpre : (planner_level_add 1
      (if w.slr_nest_executor_level == 0 && w.slr_nest_planner_level == 0 then
        { w with slr_planner_done := false } else w))
      = { w with
          slr_planner_done :=
            if w.slr_nest_executor_level == 0 && w.slr_nest_planner_level == 0 then false
            else w.slr_planner_done,
          slr_nest_planner_level := w.slr_nest_planner_level + 1 } := by
    unfold planner_level_add
    split <;> rfl
  simp only [slr_planner, bind, Exec.bind, modifyW, forwardTo, hpre, pure, Exec.pure]
  cases E.planner parse _ with
  | ok stmt w1 =>
    simp only [planner_level_add]
    split <;> rfl
  | fault e w1 => rfl
  | abort m w1 => rfl

/-- C22: the planner hook with a forwarded call that returns `stmt` in state
`w1`, leaving the two nesting levels (and, for a sub-plan, `slr_planner_done`)
as it found them.  Entered at executor level 0 and planner level 0, the
forwarded call is entered with `slr_planner_done` false and the hook returns
with it true; entered at a positive executor or planner level, the forwarded
call is entered with `slr_planner_done` as it was and the hook returns with it
unchanged.  In both cases the hook returns in the state `w1` up to the planner
level and `slr_planner_done`: no manager call is added to the trace and no
other global differs from what the forwarded call left. -/
theorem slr_planner_effect (E : Engine) (parse : Query) (w w1 : World) (stmt : PlannedStmt) :
    (w.slr_nest_executor_level = 0 → w.slr_nest_planner_level = 0 →
      E.planner parse
        { w with
          slr_planner_done := false,
          slr_nest_planner_level := 1,
          trace := w.trace ++ [.forward .planner] } = .ok stmt w1 →
      w1.slr_nest_executor_level = 0 → w1.slr_nest_planner_level = 1 →
      slr_planner E parse w
        = .ok stmt { w1 with slr_nest_planner_level := 0, slr_planner_done := true })
    ∧ ((0 < w.slr_nest_executor_level ∨ 0 < w.slr_nest_planner_level) →
      E.planner parse
        { w with
          slr_nest_planner_level := w.slr_nest_planner_level + 1,
          trace := w.trace ++ [.forward .planner] } = .ok stmt w1 →
      w1.slr_nest_executor_level = w.slr_nest_executor_level →
      w1.slr_nest_planner_level = w.slr_nest_planner_level + 1 →
      w1.slr_planner_done = w.slr_planner_done →
      slr_planner E parse w
        = .ok stmt { w1 with
            slr_nest_planner_level := w.slr_nest_planner_level,
            slr_planner_done := w.slr_planner_done }) := by
  constructor
  · intro he hp hf h1 h2
    have hpre : ({ w with
          slr_planner_done :=
            if w.slr_nest_executor_level == 0 && w.slr_nest_planner_level == 0 then false
            else w.slr_planner_done,
          slr_nest_planner_level := w.slr_nest_planner_level + 1,
          trace := w.trace ++ [.forward .planner] } : World)
        = { w with
          slr_planner_done := false,
          slr_nest_planner_level := 1,
          trace := w.trace ++ [.forward .planner] } := by
      rw [he, hp]
      rfl
    rw [slr_planner_eq, hpre, hf]
    simp [h1, h2]
  · intro hpos hf h1 h2 h3
    have hc : (w.slr_nest_executor_level == 0 && w.slr_nest_planner_level == 0) = false := by
      rcases hpos with h | h
      · have : w.slr_nest_executor_level ≠ 0 := by omega
        simp [this]
      · have : w.slr_nest_planner_level ≠ 0 := by omega
        simp [this]
    have hpre : ({ w with
          slr_planner_done :=
            if w.slr_nest_executor_level == 0 && w.slr_nest_planner_level == 0 then false
            else w.slr_planner_done,
          slr_nest_planner_level := w.slr_nest_planner_level + 1,
          trace := w.trace ++ [.forward .planner] } : World)
        = { w with
          slr_nest_planner_level := w.slr_nest_planner_level + 1,
          trace := w.trace ++ [.forward .planner] } := by
      rw [hc]
      rfl
    rw [slr_planner_eq, hpre, hf]
    have hl : w1.slr_nest_planner_level + -1 = w.slr_nest_planner_level := by omega
    have hc1 : (w1.slr_nest_executor_level == 0 && w.slr_nest_planner_level == 0)
        = false := by
      rw [h1]
      exact hc
    simp only [hl, hc1, h3, Bool.false_eq_true, if_false]

/-- A top-level planning call, and a sub-plan inside a statement's run. -/
theorem slr_planner_effect_witness :
    slr_planner Engine.quiet 0 World.open_pending
      = .ok 0 { World.open_pending with
          slr_planner_done := true, trace := [.forward .planner] }
    ∧ slr_planner Engine.quiet 0 { World.nested with slr_planner_done := false }
      = .ok 0 { World.nested with
          slr_planner_done := false, trace := [.forward .planner] } :=
  ⟨((slr_planner_effect Engine.quiet 0 World.open_pending _ 0).1 rfl rfl rfl rfl rfl).trans
      (by decide!),
    ((slr_planner_effect Engine.quiet 0 { World.nested with slr_planner_done := false }
      _ 0).2 (Or.inl (by decide)) rfl rfl rfl rfl).trans (by decide!)⟩

/-- The state `slr_add_savepoint` raises its internal errors in: the savepoint
was defined and `newresowner` already assigned. -/
theorem slr_add_savepoint_raises (E : Engine) (w : World) (h1 h2 h3 : Host)
    (hen : w.slr_enabled = true) (hop : w.slr_xact_opened = true)
    (hlv : w.slr_nest_executor_level = 0)
    (hd : E.DefineSavepoint w.slr_savepoint_name w.host = .ok () h1)
    (hc : E.CommitTransactionCommand h1 = .ok () h2)
    (hi : E.CommandCounterIncrement h2 = .ok () h3)
    (hno : w.oldresowner = none ∨ w.slrPortalContext = none) :
    slr_add_savepoint E w
      = .fault
          (.elog_error
            (if w.oldresowner.isNone then
              "Automatic savepoint internal error, no resource owner."
            else "Automatic savepoint internal error, no portal context."))
          { w with
            newresowner := h3.CurrentResourceOwner,
            host := h3,
            trace := w.trace ++ [.slr_add_savepoint, .DefineSavepoint w.slr_savepoint_name,
              .CommitTransactionCommand, .CommandCounterIncrement] } := by
  cases ho : w.oldresowner with
  | none =>
    simp [slr_add_savepoint, bind, Exec.bind, record, modifyW, Assert, getW, callHost,
      elog_ERROR, pure, Exec.pure, hen, hop, hlv, ho, hd, hc, hi]
  | some s =>
    have hx : w.slrPortalContext = none := by
      rcases hno with h | h
      · rw [ho] at h
        cases h
      · exact h
    simp [slr_add_savepoint, bind, Exec.bind, record, modifyW, Assert, getW, callHost,
      elog_ERROR, pure, Exec.pure, hen, hop, hlv, ho, hx, hd, hc, hi]

/-- C23: `slr_add_savepoint` called with the extension enabled, the transaction
open and executor level 0, and with its three engine calls returning, raises
an error exactly when `oldresowner` is empty or no portal context was captured;
the error is one of its two internal errors, and in the state it is raised in
`slr_pending` and the registered reset callbacks are as before the call and no
callback registration is in the trace. -/
theorem slr_add_savepoint_raises_iff (E : Engine) (w : World) (h1 h2 h3 : Host)
    (hen : w.slr_enabled = true) (hop : w.slr_xact_opened = true)
    (hlv : w.slr_nest_executor_level = 0)
    (hd : E.DefineSavepoint w.slr_savepoint_name w.host = .ok () h1)
    (hc : E.CommitTransactionCommand h1 = .ok () h2)
    (hi : E.CommandCounterIncrement h2 = .ok () h3) :
    ((∃ f w1, slr_add_savepoint E w = .fault f w1)
      ↔ (w.oldresowner = none ∨ w.slrPortalContext = none))
    ∧ ∀ f w1, slr_add_savepoint E w = .fault f w1 →
        (f = .elog_error "Automatic savepoint internal error, no resource owner."
          ∨ f = .elog_error "Automatic savepoint internal error, no portal context.")
        ∧ w1.slr_pending = w.slr_pending
        ∧ w1.resetCallbacks = w.resetCallbacks
        ∧ w1.trace = w.trace ++ [.slr_add_savepoint, .DefineSavepoint w.slr_savepoint_name,
            .CommitTransactionCommand, .CommandCounterIncrement] := by
  by_cases hno : w.oldresowner = none ∨ w.slrPortalContext = none
  · have hr := slr_add_savepoint_raises E w h1 h2 h3 hen hop hlv hd hc hi hno
    refine ⟨⟨fun _ => hno, fun _ => ⟨_, _, hr⟩⟩, ?_⟩
    intro f w1 hf
    rw [hr] at hf
    cases hf
    refine ⟨?_, rfl, rfl, rfl⟩
    by_cases ho : w.oldresowner.isNone = true
    · left
      rw [if_pos ho]
    · right
      rw [if_neg ho]
  · have hs : ∃ s, w.oldresowner = some s := by
      cases ho : w.oldresowner with
      | none => exact absurd (Or.inl ho) hno
      | some s => exact ⟨s, rfl⟩
    have hx : ∃ c, w.slrPortalContext = some c := by
      cases hp : w.slrPortalContext with
      | none => exact absurd (Or.inr hp) hno
      | some c => exact ⟨c, rfl⟩
    obtain ⟨s, hs⟩ := hs
    obtain ⟨c, hx⟩ := hx
    have hr := slr_add_savepoint_eq E w s c h1 h2 h3 hen hop hlv hs hx hd hc hi
    refine ⟨⟨?_, fun h => absurd h hno⟩, ?_⟩
    · rintro ⟨f, w1, hf⟩
      rw [hr] at hf
      cases hf
    · intro f w1 hf
      rw [hr] at hf
      cases hf

/-- An add with nothing saved, and an add after a save whose portal context was
lost: both raise, with the pending mark as it was. -/
theorem slr_add_savepoint_raises_iff_witness :
    (((∃ f w1, slr_add_savepoint Engine.quiet World.open_pending = .fault f w1)
      ↔ (World.open_pending.oldresowner = none ∨ World.open_pending.slrPortalContext = none))
    ∧ ∀ f w1, slr_add_savepoint Engine.quiet World.open_pending = .fault f w1 →
        (f = .elog_error "Automatic savepoint internal error, no resource owner."
          ∨ f = .elog_error "Automatic savepoint internal error, no portal context.")
        ∧ w1.slr_pending = World.open_pending.slr_pending
        ∧ w1.resetCallbacks = World.open_pending.resetCallbacks
        ∧ w1.trace = World.open_pending.trace ++ [.slr_add_savepoint,
            .DefineSavepoint World.open_pending.slr_savepoint_name,
            .CommitTransactionCommand, .CommandCounterIncrement])
    ∧ slr_add_savepoint Engine.quiet World.open_pending
      = .fault (.elog_error "Automatic savepoint internal error, no resource owner.")
          { World.open_pending with
            newresowner := some 101,
            host := { Host.running with xact := 1, CurrentResourceOwner := some 101 },
            trace := [.slr_add_savepoint,
              .DefineSavepoint World.open_pending.slr_savepoint_name,
              .CommitTransactionCommand, .CommandCounterIncrement] } :=
  ⟨slr_add_savepoint_raises_iff Engine.quiet World.open_pending
    { Host.running with xact := 1 }
    { Host.running with xact := 1, CurrentResourceOwner := some 101 }
    { Host.running with xact := 1, CurrentResourceOwner := some 101 }
    rfl rfl rfl rfl rfl rfl, by decide!⟩

/-- The classifier on an internal call (lines 272-279): no intent, no
assignment, for every statement. -/
theorem classify_internal (parsetree : Node) (dest : CommandDest) (w : World)
    (hint : internal_call dest w = true) :
    slr_ProcessUtility_classify parsetree dest w = .ok (false, false) w := by
  simp [slr_ProcessUtility_classify, hint]

/-- The last part of the utility hook on an internal call (lines 429-437)
returns at once. -/
theorem slr_ProcessUtility_after_internal (E : Engine) (dest : CommandDest)
    (release_add_savepoint add_savepoint : Bool) (w : World)
    (hint : internal_call dest w = true) :
    slr_ProcessUtility_after E dest release_add_savepoint add_savepoint w = .ok () w := by
  simp [slr_ProcessUtility_after, bind, Exec.bind, getW, hint, pure, Exec.pure]

/-- C24: the utility hook called with destination SPI or in a parallel worker,
for every statement and every state.  The forwarded call is entered in the
entry state with the executor level one higher.  When it returns in `w2` (with
the destination SPI, or still in a parallel worker) the hook returns in `w2`
with the executor level one lower; when it raises `e` in `w2` the hook raises
`e` in `w2` with the executor level one lower.  Either way the trace is the
forwarded call's, so the hook calls no manager function, and it assigns none
of `slr_xact_opened`, `slr_pending`, `oldresowner`, `newresowner` and
`slr_defered_save_resowner`. -/
theorem internal_utility_call_untouched (E : Engine) (parsetree : Node)
    (dest : CommandDest) (w : World) (hint : internal_call dest w = true) :
    (∀ w2, E.ProcessUtility parsetree dest
          { executor_level_add 1 w with trace := w.trace ++ [.forward .ProcessUtility] }
        = .ok () w2 →
      (dest = .DestSPI ∨ IN_PARALLEL_WORKER w2 = true) →
      slr_ProcessUtility E parsetree dest w = .ok () (executor_level_add (-1) w2))
    ∧ (∀ e w2, E.ProcessUtility parsetree dest
          { executor_level_add 1 w with trace := w.trace ++ [.forward .ProcessUtility] }
        = .fault e w2 →
      slr_ProcessUtility E parsetree dest w = .fault e (executor_level_add (-1) w2)) := by
  constructor
  · intro w2 hf h2
    have hint2 : internal_call dest (executor_level_add (-1) w2) = true := by
      rw [internal_call_level]
      rcases h2 with h | h
      · subst h
        rfl
      · simp [internal_call, h]
    rw [slr_ProcessUtility_eq, classify_internal parsetree dest w hint]
    simp only []
    rw [hf]
    exact slr_ProcessUtility_after_internal E dest _ _ _ hint2
  · intro e w2 hf
    rw [slr_ProcessUtility_eq, classify_internal parsetree dest w hint]
    simp only []
    rw [hf]

/-- `BEGIN` run through SPI with a rotation owed, and `COMMIT` in a parallel
worker whose forwarded call raises. -/
theorem internal_utility_call_untouched_witness :
    slr_ProcessUtility Engine.quiet (.TransactionStmt .TRANS_STMT_BEGIN none) .DestSPI
        World.owing
      = .ok () { World.owing with trace := [.forward .ProcessUtility] }
    ∧ slr_ProcessUtility Engine.run_raises (.TransactionStmt .TRANS_STMT_COMMIT none)
        .DestRemote World.worker
      = .fault (.engine_error 0) { World.worker with trace := [.forward .ProcessUtility] } :=
  ⟨((internal_utility_call_untouched Engine.quiet (.TransactionStmt .TRANS_STMT_BEGIN none)
      .DestSPI World.owing rfl).1 _ rfl (Or.inl rfl)).trans (by decide!),
    ((internal_utility_call_untouched Engine.run_raises
      (.TransactionStmt .TRANS_STMT_COMMIT none) .DestRemote World.worker rfl).2 _ _ rfl).trans
      (by decide!)⟩

/-- The classifier assigns nothing but `slr_xact_opened` and `slr_pending`. -/
theorem classify_frame (parsetree : Node) (dest : CommandDest) (w wc : World)
    (intent : Bool × Bool)
    (hcl : slr_ProcessUtility_classify parsetree dest w = .ok intent wc) :
    wc = { w with slr_xact_opened := wc.slr_xact_opened, slr_pending := wc.slr_pending } := by
  unfold slr_ProcessUtility_classify at hcl
  cases hi : internal_call dest w with
  | true =>
    rw [hi] at hcl
    cases hcl
    rfl
  | false =>
    rw [hi] at hcl
    cases parsetree with
    | TransactionStmt kind name =>
      cases kind <;> cases name <;> cases hcl <;> rfl
    | FetchStmt => cases hcl; rfl
    | DeclareCursorStmt =>
      by_cases he : w.slr_enabled = true <;> simp [he] at hcl <;>
        (obtain ⟨_, h⟩ := hcl; subst h; rfl)
    | PlannedStmt =>
      by_cases he : w.slr_enabled = true <;> simp [he] at hcl <;>
        (obtain ⟨_, h⟩ := hcl; subst h; rfl)
    | ClosePortalStmt =>
      by_cases he : w.slr_enabled = true <;> simp [he] at hcl <;>
        (obtain ⟨_, h⟩ := hcl; subst h; rfl)
    | other tag =>
      by_cases he : w.slr_enabled = true <;> simp [he] at hcl <;>
        (obtain ⟨_, h⟩ := hcl; subst h; rfl)

/-- The utility hook when its forwarded call raises (lines 421-425): the error
is raised again in the state the call left, with the executor level one
lower. -/
theorem slr_ProcessUtility_fault (E : Engine) (parsetree : Node) (dest : CommandDest)
    (w wc w2 : World) (intent : Bool × Bool) (e : Fault)
    (hcl : slr_ProcessUtility_classify parsetree dest w = .ok intent wc)
    (hf : E.ProcessUtility parsetree dest
        { executor_level_add 1 wc with trace := wc.trace ++ [.forward .ProcessUtility] }
      = .fault e w2) :
    slr_ProcessUtility E parsetree dest w = .fault e (executor_level_add (-1) w2) := by
  rw [slr_ProcessUtility_eq, hcl]
  simp only []
  rw [hf]

/-- C25: the utility hook whose forwarded call raises `e` in `w2`, the
classifier having returned in `wc`.  The hook raises `e` in `w2` with the
executor level one lower: the trace is the forwarded call's (no manager
function is called) and `slr_defered_save_resowner` is not assigned.  The
classifier changed nothing but `slr_xact_opened` and `slr_pending`, and on a call
that is not internal it set `slr_xact_opened` for `BEGIN` and `START
TRANSACTION`, cleared `slr_xact_opened` and `slr_pending` for `COMMIT`, `ROLLBACK`
and their `PREPARED` forms, and cleared `slr_xact_opened` for `PREPARE
TRANSACTION`.  When the forwarded call left those two globals, the executor
level and the flag as it found them, the hook raises with the executor level
and the flag at their entry values and `slr_xact_opened` and `slr_pending` as the
classifier set them. -/
theorem faulted_utility_keeps_classification (E : Engine) (parsetree : Node)
    (dest : CommandDest) (w wc w2 : World) (intent : Bool × Bool) (e : Fault)
    (hcl : slr_ProcessUtility_classify parsetree dest w = .ok intent wc)
    (hf : E.ProcessUtility parsetree dest
        { executor_level_add 1 wc with trace := wc.trace ++ [.forward .ProcessUtility] }
      = .fault e w2) :
    slr_ProcessUtility E parsetree dest w = .fault e (executor_level_add (-1) w2)
    ∧ wc = { w with slr_xact_opened := wc.slr_xact_opened, slr_pending := wc.slr_pending }
    ∧ (internal_call dest w = false → ∀ kind name, parsetree = .TransactionStmt kind name →
        ((kind = .TRANS_STMT_BEGIN ∨ kind = .TRANS_STMT_START) →
          wc.slr_xact_opened = true ∧ wc.slr_pending = w.slr_pending)
        ∧ (kind.ends_transaction = true →
          wc.slr_xact_opened = false ∧ wc.slr_pending = false)
        ∧ (kind = .TRANS_STMT_PREPARE →
          wc.slr_xact_opened = false ∧ wc.slr_pending = w.slr_pending))
    ∧ (w2.slr_nest_executor_level = wc.slr_nest_executor_level + 1 →
        w2.slr_defered_save_resowner = wc.slr_defered_save_resowner →
        w2.slr_xact_opened = wc.slr_xact_opened →
        w2.slr_pending = wc.slr_pending →
        (executor_level_add (-1) w2).slr_nest_executor_level = w.slr_nest_executor_level
        ∧ (executor_level_add (-1) w2).slr_defered_save_resowner
            = w.slr_defered_save_resowner
        ∧ (executor_level_add (-1) w2).slr_xact_opened = wc.slr_xact_opened
        ∧ (executor_level_add (-1) w2).slr_pending = wc.slr_pending) := by
  have hfr := classify_frame parsetree dest w wc intent hcl
  refine ⟨slr_ProcessUtility_fault E parsetree dest w wc w2 intent e hcl hf, hfr, ?_, ?_⟩
  · intro hint kind name hp
    subst hp
    refine ⟨?_, ?_, ?_⟩
    · intro hk
      rw [classify_begin kind name dest w hint hk] at hcl
      cases hcl
      exact ⟨rfl, rfl⟩
    · intro hk
      rw [classify_ends_transaction kind name dest w hint hk] at hcl
      cases hcl
      exact ⟨rfl, rfl⟩
    · intro hk
      subst hk
      rw [classify_prepare name dest w hint] at hcl
      cases hcl
      exact ⟨rfl, rfl⟩
  · intro h1 h2 h3 h4
    have hl : wc.slr_nest_executor_level = w.slr_nest_executor_level := by
      rw [hfr]
    have hd : wc.slr_defered_save_resowner = w.slr_defered_save_resowner := by
      rw [hfr]
    refine ⟨?_, ?_, h3, h4⟩
    · simp only [executor_level_add]
      omega
    · simp only [executor_level_add]
      rw [h2, hd]

/-- A `BEGIN` from the client whose forwarded call raises, in a fresh session:
the error is raised again with the transaction marked open. -/
theorem faulted_utility_keeps_classification_witness :
    slr_ProcessUtility Engine.run_raises (.TransactionStmt .TRANS_STMT_BEGIN none)
        .DestRemote World.initial
      = .fault (.engine_error 0)
          { World.initial with slr_xact_opened := true, trace := [.forward .ProcessUtility] }
    ∧ slr_ProcessUtility Engine.run_raises (.TransactionStmt .TRANS_STMT_COMMIT none)
        .DestRemote World.owing
      = .fault (.engine_error 0)
          { World.owing with
            slr_xact_opened := false, slr_pending := false,
            trace := [.forward .ProcessUtility] } :=
  ⟨((faulted_utility_keeps_classification Engine.run_raises
      (.TransactionStmt .TRANS_STMT_BEGIN none) .DestRemote World.initial _ _ _ _
      rfl rfl).1).trans (by decide!),
    ((faulted_utility_keeps_classification Engine.run_raises
      (.TransactionStmt .TRANS_STMT_COMMIT none) .DestRemote World.owing _ _ _ _
      rfl rfl).1).trans (by decide!)⟩

end PgStatementRollback
